import Mathlib

/-!
Verification development for the odoo-mcp-improved repository.

The Python tool modules (src/odoo_mcp/tools_sales.py, tools_purchase.py,
tools_inventory.py, tools_accountings.py) are shallowly embedded below:

* Python floats carrying money amounts are modelled as exact rationals (ℚ);
  Python's `round(x, 2)` (round-half-to-even at 2 decimal places) is
  `pyRound2`.
* `datetime.strptime(s, "%Y-%m-%d")` is modelled by the `DateStr` structure:
  `raw` is the input string and `parsed` the parse result (`none` models the
  `ValueError` branch).  `datetime` values are proleptic-Gregorian dates
  (`PyDate`), with `days_from_civil` / `civil_from_days` giving the day
  ordinal used for `timedelta` arithmetic, and `strftime_ymd` modelling
  `strftime("%Y-%m-%d")`.
* The Odoo RPC collaborator (`ctx.request_context.lifespan_context.odoo`) is
  modelled per tool as a structure of typed methods returning
  `Except String α`: `.error msg` models the collaborator raising an
  exception whose `str(e)` is `msg`.
* Each tool returns `PyResult payload × Nat`: the result dictionary
  (`{"success": True, "result": ...}` is `.ok`, `{"success": False,
  "error": ...}` is `.err`) paired with the number of collaborator calls the
  invocation performed.
* Python truthiness tests on optional fields (`if filters.partner_id:` and
  the like) are modelled by explicit matches: `none`, integer `0`, the empty
  string and the empty list are falsy.
* `sorted(..., key=..., reverse=True)` is a stable descending sort; it is
  modelled by the stable insertion sort `sortByDesc` (extensionally equal to
  any stable sort with the same key).
-/

namespace OdooMCP

/-- Result dictionary crossing the tool boundary: `{"success": True,
"result": p}` or `{"success": False, "error": msg}`. -/
inductive PyResult (α : Type) where
  | ok (payload : α)
  | err (msg : String)
deriving DecidableEq

/-- Value placed in a domain predicate: integer id, string, list of ids or
list of strings. -/
inductive DVal where
  | i (n : Int)
  | s (str : String)
  | ids (ns : List Int)
  | strs (ss : List String)
deriving DecidableEq

/-- A search-domain predicate `(field, operator, value)`. -/
abbrev DomPred := String × String × DVal

/-- An Odoo search domain: ordered list of conjunctive predicates. -/
abbrev Domain := List DomPred

/-- A proleptic Gregorian calendar date, as held by `datetime`. -/
structure PyDate where
  y : Int
  m : Int
  d : Int
deriving DecidableEq

/-- Day ordinal of a civil date (days since 1970-01-01, Howard Hinnant's
`days_from_civil`); models subtraction of `datetime` values in days. -/
def days_from_civil (dt : PyDate) : Int :=
  let y := if dt.m ≤ 2 then dt.y - 1 else dt.y
  let era := Int.ediv y 400
  let yoe := y - era * 400
  let mp := if dt.m > 2 then dt.m - 3 else dt.m + 9
  let doy := Int.ediv (153 * mp + 2) 5 + dt.d - 1
  let doe := yoe * 365 + Int.ediv yoe 4 - Int.ediv yoe 100 + doy
  era * 146097 + doe - 719468

/-- Inverse of `days_from_civil` (Hinnant's `civil_from_days`); models
`datetime ± timedelta`. -/
def civil_from_days (z0 : Int) : PyDate :=
  let z := z0 + 719468
  let era := Int.ediv z 146097
  let doe := z - era * 146097
  let yoe := Int.ediv (doe - Int.ediv doe 1460 + Int.ediv doe 36524 - Int.ediv doe 146096) 365
  let yr := yoe + era * 400
  let doy := doe - (365 * yoe + Int.ediv yoe 4 - Int.ediv yoe 100)
  let mp := Int.ediv (5 * doy + 2) 153
  let d := doy - Int.ediv (153 * mp + 2) 5 + 1
  let m := if mp < 10 then mp + 3 else mp - 9
  ⟨if m ≤ 2 then yr + 1 else yr, m, d⟩

/-- Zero-pad an integer in `[0, 99]` to two digits. -/
def pad2 (n : Int) : String := if n < 10 then "0" ++ toString n else toString n

/-- Models `datetime.strftime("%Y-%m-%d")` (four-digit years). -/
def strftime_ymd (dt : PyDate) : String :=
  toString dt.y ++ "-" ++ pad2 dt.m ++ "-" ++ pad2 dt.d

/-- A date-string argument together with what `datetime.strptime(raw,
"%Y-%m-%d")` does on it: `parsed = none` models the `ValueError` branch. -/
structure DateStr where
  raw : String
  parsed : Option PyDate
deriving DecidableEq

/-- Round a rational to the nearest integer, ties to even — the rounding
Python's builtin `round` uses. -/
def roundHalfEvenZ (q : ℚ) : Int :=
  let f : Int := ⌊q⌋
  let r : ℚ := q - f
  if r < 1 / 2 then f
  else if r > 1 / 2 then f + 1
  else if Int.emod f 2 = 0 then f else f + 1

/-- Models Python's `round(x, 2)`. -/
def pyRound2 (q : ℚ) : ℚ := (roundHalfEvenZ (q * 100) : ℚ) / 100

/-- English invalid-date message of the sales/purchase/inventory tools:
`f"Invalid date format: {d}. Use YYYY-MM-DD."`. -/
def invalidDateMsgEn (s : String) : String :=
  "Invalid date format: " ++ s ++ ". Use YYYY-MM-DD."

/-- Spanish invalid-date message of the accounting tools. -/
def invalidDateMsgEs (s : String) : String :=
  "Formato de fecha inválido: " ++ s ++ ". Use YYYY-MM-DD."

/-- Fixed invalid-date message of the English analysis tools. -/
def invalidDateMsgAnalysisEn : String := "Invalid date format. Use YYYY-MM-DD."

/-- Fixed invalid-date message of the Spanish analysis tool. -/
def invalidDateMsgAnalysisEs : String := "Formato de fecha inválido. Use YYYY-MM-DD."

/-- `str(e)` of the `IndexError` raised by indexing `[0]` into an empty
read result. -/
def listIndexMsg : String := "list index out of range"

/-- The error message names the expected `YYYY-MM-DD` format. -/
def namesYmdFormat (msg : String) : Prop :=
  "YYYY-MM-DD".data <:+: msg.data

/-- One optional-date filter block of the search tools: `if filters.d:`
(string truthiness — absent or empty strings are skipped), then
`strptime` inside `try`, appending `(field, op, raw)` on success and
returning the invalid-date error on `ValueError`. -/
def dateFilterStep (domain : Domain) (field op : String) (d : Option DateStr)
    (msg : String → String) : Except String Domain :=
  match d with
  | none => .ok domain
  | some ds =>
    if ds.raw = "" then .ok domain
    else match ds.parsed with
      | none => .error (msg ds.raw)
      | some _ => .ok (domain ++ [(field, op, DVal.s ds.raw)])

/-- One optional-date block of the create tools: `if x.date:` (string
truthiness), validated with `strptime`, producing the value stored in the
create dictionary (or no value, or the invalid-date error). -/
def dateOptValue (d : Option DateStr) (msg : String → String) :
    Except String (Option String) :=
  match d with
  | none => .ok none
  | some ds =>
    if ds.raw = "" then .ok none
    else match ds.parsed with
      | none => .error (msg ds.raw)
      | some _ => .ok (some ds.raw)

/-- Insert into a descending-sorted list, before the first element of
smaller-or-equal key (so earlier elements stay ahead of equal keys). -/
def insertByDesc {α : Type} (key : α → ℚ) (x : α) : List α → List α
  | [] => [x]
  | y :: ys => if key y ≤ key x then x :: y :: ys else y :: insertByDesc key x ys

/-- Stable descending sort by a rational key; models
`sorted(items, key=..., reverse=True)`. -/
def sortByDesc {α : Type} (key : α → ℚ) : List α → List α
  | [] => []
  | x :: xs => insertByDesc key x (sortByDesc key xs)

/-- Update an insertion-ordered association list at `key`, starting from
`init` when the key is new; models the `if k not in d: d[k] = init` /
`d[k] = f(d[k])` pattern on a Python dict. -/
def updateAssoc {α : Type} (acc : List (Int × α)) (key : Int) (init : α) (f : α → α) :
    List (Int × α) :=
  if (acc.map (·.1)).contains key then
    acc.map (fun kv => if kv.1 = key then (kv.1, f kv.2) else kv)
  else acc ++ [(key, f init)]

/-! ## Sales: `search_sales_orders` (tools_sales.py lines 18-87) -/

/-- Pydantic `SalesOrderFilter` (models.py): date fields carry the
`strptime` outcome alongside the raw string. -/
structure SalesOrderFilter where
  partner_id : Option Int := none
  date_from : Option DateStr := none
  date_to : Option DateStr := none
  state : Option String := none
  limit : Option Int := some 20
  offset : Option Int := some 0
  order : Option String := none

/-- A `sale.order` record as returned by `search_read` (only the fields the
tools read are typed). -/
structure SalesRec where
  id : Int
  name : String
  partner_id : Option (Int × String)
  date_order : String
  amount_total : ℚ
  user_id : Option (Int × String)
deriving DecidableEq

/-- Collaborator methods used by `search_sales_orders`. -/
structure SalesSearchStore where
  search_read : Domain → Option Int → Option Int → Option String →
    Except String (List SalesRec)
  search_count : Domain → Except String Int

/-- Search result payload (`count`, `total_count`, `orders`). -/
structure SalesSearchPayload where
  count : Nat
  total_count : Int
  orders : List SalesRec
deriving DecidableEq

/-- Domain construction of `search_sales_orders` (lines 36-56): truthiness
test on `partner_id`, validated date predicates, truthiness test on
`state`. -/
def buildSalesDomain (filters : SalesOrderFilter) : Except String Domain :=
  let domain : Domain := []
  let domain := match filters.partner_id with
    | some p => if p = 0 then domain else domain ++ [("partner_id", "=", DVal.i p)]
    | none => domain
  match dateFilterStep domain "date_order" ">=" filters.date_from invalidDateMsgEn with
  | .error e => .error e
  | .ok domain =>
    match dateFilterStep domain "date_order" "<=" filters.date_to invalidDateMsgEn with
    | .error e => .error e
    | .ok domain =>
      .ok (match filters.state with
        | some s => if s = "" then domain else domain ++ [("state", "=", DVal.s s)]
        | none => domain)

/-- `search_sales_orders` (tools_sales.py lines 18-87). -/
def search_sales_orders (st : SalesSearchStore) (filters : SalesOrderFilter) :
    PyResult SalesSearchPayload × Nat :=
  match buildSalesDomain filters with
  | .error e => (.err e, 0)
  | .ok domain =>
    match st.search_read domain filters.limit filters.offset filters.order with
    | .error e => (.err e, 1)
    | .ok orders =>
      match st.search_count domain with
      | .error e => (.err e, 2)
      | .ok total_count => (.ok ⟨orders.length, total_count, orders⟩, 2)

/-! ## Accounting: `search_journal_entries` (tools_accountings.py lines 18-99) -/

/-- Pydantic `JournalEntryFilter`. -/
structure JournalEntryFilter where
  date_from : Option DateStr := none
  date_to : Option DateStr := none
  journal_id : Option Int := none
  state : Option String := none
  limit : Option Int := some 20
  offset : Option Int := some 0

/-- An `account.move.line` record as fetched for an entry's lines. -/
structure MoveLineRec where
  name : String
  account_id : Option (Int × String)
  partner_id : Option (Int × String)
  debit : ℚ
  credit : ℚ
  balance : ℚ
deriving DecidableEq

/-- An `account.move` record as returned by `search_read`. -/
structure JournalEntryRec where
  id : Int
  name : String
  ref : Option String
  date : String
  journal_id : Option (Int × String)
  state : String
  amount_total : ℚ
  amount_total_signed : ℚ
  line_ids : List Int
deriving DecidableEq

/-- An entry after the per-entry post-processing loop: when `line_ids` was
truthy it was popped and `lines` added. -/
structure JournalEntryOut where
  base : JournalEntryRec
  line_ids_kept : Option (List Int)
  lines : Option (List MoveLineRec)
deriving DecidableEq

/-- Collaborator methods used by `search_journal_entries`. -/
structure JournalSearchStore where
  search_read_moves : Domain → Option Int → Option Int →
    Except String (List JournalEntryRec)
  search_count_moves : Domain → Except String Int
  search_read_lines : Domain → Except String (List MoveLineRec)

structure JournalSearchPayload where
  count : Nat
  total_count : Int
  entries : List JournalEntryOut
deriving DecidableEq

/-- Domain construction of `search_journal_entries` (lines 36-56): the two
validated date predicates, then truthiness tests on `journal_id` and
`state`. -/
def buildJournalDomain (filters : JournalEntryFilter) : Except String Domain :=
  let domain : Domain := []
  match dateFilterStep domain "date" ">=" filters.date_from invalidDateMsgEs with
  | .error e => .error e
  | .ok domain =>
    match dateFilterStep domain "date" "<=" filters.date_to invalidDateMsgEs with
    | .error e => .error e
    | .ok domain =>
      let domain := match filters.journal_id with
        | some j => if j = 0 then domain else domain ++ [("journal_id", "=", DVal.i j)]
        | none => domain
      .ok (match filters.state with
        | some s => if s = "" then domain else domain ++ [("state", "=", DVal.s s)]
        | none => domain)

/-- The per-entry loop of `search_journal_entries` (lines 77-87): when
`entry.get("line_ids")` is truthy, fetch the lines (one store call, which
may raise) and replace `line_ids` by `lines`. -/
def journalEntriesLoop (st : JournalSearchStore) :
    List JournalEntryRec → Nat → Except String (List JournalEntryOut) × Nat
  | [], calls => (.ok [], calls)
  | e :: rest, calls =>
    if e.line_ids = [] then
      match journalEntriesLoop st rest calls with
      | (.error msg, c) => (.error msg, c)
      | (.ok outs, c) => (.ok (⟨e, some e.line_ids, none⟩ :: outs), c)
    else
      match st.search_read_lines [("id", "in", DVal.ids e.line_ids)] with
      | .error msg => (.error msg, calls + 1)
      | .ok lines =>
        match journalEntriesLoop st rest (calls + 1) with
        | (.error msg, c) => (.error msg, c)
        | (.ok outs, c) => (.ok (⟨e, none, some lines⟩ :: outs), c)

/-- `search_journal_entries` (tools_accountings.py lines 18-99). -/
def search_journal_entries (st : JournalSearchStore) (filters : JournalEntryFilter) :
    PyResult JournalSearchPayload × Nat :=
  match buildJournalDomain filters with
  | .error e => (.err e, 0)
  | .ok domain =>
    match st.search_read_moves domain filters.limit filters.offset with
    | .error e => (.err e, 1)
    | .ok entries =>
      match st.search_count_moves domain with
      | .error e => (.err e, 2)
      | .ok total_count =>
        match journalEntriesLoop st entries 2 with
        | (.error e, c) => (.err e, c)
        | (.ok outs, c) => (.ok ⟨entries.length, total_count, outs⟩, c)

/-! ## Accounting: `create_journal_entry` (tools_accountings.py lines 101-176) -/

/-- Pydantic `JournalEntryLineCreate`: `debit`/`credit` default `0.0`. -/
structure JournalEntryLineCreate where
  account_id : Int
  partner_id : Option Int := none
  name : Option String := none
  debit : ℚ := 0
  credit : ℚ := 0

/-- Pydantic `JournalEntryCreate`. -/
structure JournalEntryCreate where
  ref : Option String := none
  journal_id : Int
  date : Option DateStr := none
  lines : List JournalEntryLineCreate

/-- One element of `move_vals["line_ids"]`. -/
structure MoveLineVals where
  account_id : Int
  name : String
  debit : ℚ
  credit : ℚ
  partner_id : Option Int
deriving DecidableEq

/-- The `move_vals` dictionary passed to `account.move create`. -/
structure MoveVals where
  journal_id : Int
  ref : Option String
  date : Option String
  line_ids : List MoveLineVals
deriving DecidableEq

/-- `read` result for a created move. -/
structure MoveInfoRec where
  name : String
  state : String
deriving DecidableEq

/-- Collaborator methods used by `create_journal_entry`. -/
structure JournalCreateStore where
  create_move : MoveVals → Except String Int
  read_move : Int → Except String (List MoveInfoRec)

structure JournalCreatePayload where
  move_id : Int
  name : String
  state : String
deriving DecidableEq

/-- The unbalanced-entry message (numeric formatting abstracted by
`toString`). -/
def unbalancedMsg (total_debit total_credit : ℚ) : String :=
  "El asiento no está cuadrado. Debe: " ++ toString total_debit ++
    ", Haber: " ++ toString total_credit

/-- `create_journal_entry` (tools_accountings.py lines 101-176): balance
check on the 2-decimal-rounded totals first, then `ref`/`date` handling
(truthiness and `strptime`), then the two store calls. -/
def create_journal_entry (st : JournalCreateStore) (entry : JournalEntryCreate) :
    PyResult JournalCreatePayload × Nat :=
  let total_debit := (entry.lines.map (·.debit)).sum
  let total_credit := (entry.lines.map (·.credit)).sum
  if pyRound2 total_debit ≠ pyRound2 total_credit then
    (.err (unbalancedMsg total_debit total_credit), 0)
  else
    let refVal : Option String := match entry.ref with
      | some r => if r = "" then none else some r
      | none => none
    match dateOptValue entry.date invalidDateMsgEs with
    | .error e => (.err e, 0)
    | .ok dateVal =>
      let line_ids := entry.lines.map (fun line =>
        ({ account_id := line.account_id
           name := match line.name with
             | some s => if s = "" then "/" else s
             | none => "/"
           debit := line.debit
           credit := line.credit
           partner_id := match line.partner_id with
             | some p => if p = 0 then none else some p
             | none => none } : MoveLineVals))
      let move_vals : MoveVals := ⟨entry.journal_id, refVal, dateVal, line_ids⟩
      match st.create_move move_vals with
      | .error e => (.err e, 1)
      | .ok move_id =>
        match st.read_move move_id with
        | .error e => (.err e, 2)
        | .ok [] => (.err listIndexMsg, 2)
        | .ok (info :: _) => (.ok ⟨move_id, info.name, info.state⟩, 2)

/-! ## Sales: `create_sales_order` (tools_sales.py lines 89-148) -/

/-- Pydantic `SalesOrderLineCreate`. -/
structure SalesOrderLineCreate where
  product_id : Int
  product_uom_qty : ℚ
  price_unit : Option ℚ := none

/-- Pydantic `SalesOrderCreate`. -/
structure SalesOrderCreate where
  partner_id : Int
  order_lines : List SalesOrderLineCreate
  date_order : Option DateStr := none

/-- One element of `order_vals["order_line"]`: `price_unit` is included
exactly when it `is not None`. -/
structure OrderLineVals where
  product_id : Int
  product_uom_qty : ℚ
  price_unit : Option ℚ
deriving DecidableEq

/-- The `order_vals` dictionary passed to `create`. -/
structure OrderVals where
  partner_id : Int
  date_order : Option String
  order_line : List OrderLineVals
deriving DecidableEq

/-- `read` result carrying only `name`. -/
structure NameRec where
  name : String
deriving DecidableEq

/-- Collaborator methods used by `create_sales_order`. -/
structure SalesCreateStore where
  create_order : OrderVals → Except String Int
  read_order : Int → Except String (List NameRec)

structure CreateOrderPayload where
  order_id : Int
  order_name : String
deriving DecidableEq

/-- `create_sales_order` (tools_sales.py lines 89-148). -/
def create_sales_order (st : SalesCreateStore) (order : SalesOrderCreate) :
    PyResult CreateOrderPayload × Nat :=
  match dateOptValue order.date_order invalidDateMsgEn with
  | .error e => (.err e, 0)
  | .ok dateVal =>
    let order_line := order.order_lines.map (fun line =>
      (⟨line.product_id, line.product_uom_qty, line.price_unit⟩ : OrderLineVals))
    match st.create_order ⟨order.partner_id, dateVal, order_line⟩ with
    | .error e => (.err e, 1)
    | .ok order_id =>
      match st.read_order order_id with
      | .error e => (.err e, 2)
      | .ok [] => (.err listIndexMsg, 2)
      | .ok (info :: _) => (.ok ⟨order_id, info.name⟩, 2)

/-! ## Sales: `analyze_sales_performance` (tools_sales.py lines 150-339) -/

/-- Pydantic `SalesPerformanceInput`: `date_from`/`date_to` required. -/
structure SalesPerformanceInput where
  date_from : DateStr
  date_to : DateStr
  group_by : Option String := none

/-- A `sale.order.line` record used by the product grouping. -/
structure SOLineRec where
  product_id : Option (Int × String)
  product_uom_qty : ℚ
  price_subtotal : ℚ
deriving DecidableEq

/-- Collaborator methods used by `analyze_sales_performance`. -/
structure SalesPerfStore where
  search_read_orders : Domain → Except String (List SalesRec)
  search_read_lines : Domain → Except String (List SOLineRec)

/-- Domain for confirmed orders in a period (lines 175-179 and 196-200). -/
def perfDomain (date_from date_to : String) : Domain :=
  [("date_order", ">=", DVal.s date_from), ("date_order", "<=", DVal.s date_to),
   ("state", "in", DVal.strs ["sale", "done"])]

/-- Product-group accumulator (`{"name": ..., "quantity": 0, "amount": 0}`). -/
structure ProdGroupAcc where
  name : String
  quantity : ℚ
  amount : ℚ
deriving DecidableEq

/-- Customer/salesperson accumulator (`{"name": ..., "order_count": 0,
"amount": 0}`). -/
structure CountGroupAcc where
  name : String
  order_count : Nat
  amount : ℚ
deriving DecidableEq

/-- A `{"id": k, **v}` entry of the product ranking. -/
structure ProdGroupEntry where
  id : Int
  name : String
  quantity : ℚ
  amount : ℚ
deriving DecidableEq

/-- A `{"id": k, **v}` entry of the customer/salesperson rankings. -/
structure CountGroupEntry where
  id : Int
  name : String
  order_count : Nat
  amount : ℚ
deriving DecidableEq

/-- The `grouped_data` dictionary: a missing key is `none` (the empty
dictionary is all-`none`). -/
structure GroupedData where
  products : Option (List ProdGroupEntry) := none
  customers : Option (List CountGroupEntry) := none
  salespersons : Option (List CountGroupEntry) := none
deriving DecidableEq

/-- Grouping section of `analyze_sales_performance` (lines 217-311):
product grouping fetches order lines (one store call) and keeps the top
10, customer grouping keeps the top 10, salesperson grouping keeps the
whole ranking. -/
def salesGroupedData (st : SalesPerfStore) (group_by : Option String)
    (sales_data : List SalesRec) : Except String GroupedData × Nat :=
  match group_by with
  | none => (.ok {}, 0)
  | some g =>
    if g = "" then (.ok {}, 0)
    else if g = "product" then
      let order_ids := sales_data.map (·.id)
      if order_ids = [] then (.ok {}, 0)
      else
        match st.search_read_lines [("order_id", "in", DVal.ids order_ids)] with
        | .error e => (.error e, 1)
        | .ok order_lines =>
          let product_data := order_lines.foldl (fun acc line =>
            let pid := match line.product_id with | some pr => pr.1 | none => 0
            let pname := match line.product_id with | some pr => pr.2 | none => "Unknown"
            updateAssoc acc pid ⟨pname, 0, 0⟩ (fun a =>
              ⟨a.name, a.quantity + line.product_uom_qty, a.amount + line.price_subtotal⟩))
            ([] : List (Int × ProdGroupAcc))
          let top_products := sortByDesc (fun kv => kv.2.amount) product_data
          (.ok { products := some ((top_products.take 10).map (fun kv =>
            ⟨kv.1, kv.2.name, kv.2.quantity, kv.2.amount⟩)) }, 1)
    else if g = "customer" then
      let customer_data := sales_data.foldl (fun acc order =>
        let cid := match order.partner_id with | some pr => pr.1 | none => 0
        let cname := match order.partner_id with | some pr => pr.2 | none => "Unknown"
        updateAssoc acc cid ⟨cname, 0, 0⟩ (fun a =>
          ⟨a.name, a.order_count + 1, a.amount + order.amount_total⟩))
        ([] : List (Int × CountGroupAcc))
      let top_customers := sortByDesc (fun kv => kv.2.amount) customer_data
      (.ok { customers := some ((top_customers.take 10).map (fun kv =>
        ⟨kv.1, kv.2.name, kv.2.order_count, kv.2.amount⟩)) }, 0)
    else if g = "salesperson" then
      let salesperson_data := sales_data.foldl (fun acc order =>
        let sid := match order.user_id with | some pr => pr.1 | none => 0
        let sname := match order.user_id with | some pr => pr.2 | none => "Unknown"
        updateAssoc acc sid ⟨sname, 0, 0⟩ (fun a =>
          ⟨a.name, a.order_count + 1, a.amount + order.amount_total⟩))
        ([] : List (Int × CountGroupAcc))
      let top_salespersons := sortByDesc (fun kv => kv.2.amount) salesperson_data
      (.ok { salespersons := some (top_salespersons.map (fun kv =>
        ⟨kv.1, kv.2.name, kv.2.order_count, kv.2.amount⟩)) }, 0)
    else (.ok {}, 0)

/-- Ordinal of the previous window's end: `prev_date_to = date_from -
timedelta(days=1)` (line 193). -/
def prevOrdTo (dfd : PyDate) : Int := days_from_civil dfd - 1

/-- Ordinal of the previous window's start: `prev_date_from = prev_date_to -
delta` with `delta = date_to - date_from` (lines 191-194). -/
def prevOrdFrom (dfd dtd : PyDate) : Int :=
  prevOrdTo dfd - (days_from_civil dtd - days_from_civil dfd)

/-- The `summary` part of the analysis payload. -/
structure SalesPerfSummary where
  order_count : Nat
  total_amount : ℚ
  prev_from : String
  prev_to : String
  prev_order_count : Nat
  prev_total_amount : ℚ
  percent_change : ℚ
deriving DecidableEq

structure SalesPerfPayload where
  period_from : String
  period_to : String
  summary : SalesPerfSummary
  grouped_data : GroupedData
deriving DecidableEq

/-- `analyze_sales_performance` (tools_sales.py lines 150-339): date
validation, current-period fetch, previous window `prev_to = date_from −
1 day`, `prev_from = prev_to − (date_to − date_from)`, previous-period
fetch, percent change with the `previous_total > 0` guard (rounded to 2
decimals in the payload), then grouping. -/
def analyze_sales_performance (st : SalesPerfStore) (params : SalesPerformanceInput) :
    PyResult SalesPerfPayload × Nat :=
  match params.date_from.parsed, params.date_to.parsed with
  | some dfd, some dtd =>
    match st.search_read_orders (perfDomain params.date_from.raw params.date_to.raw) with
    | .error e => (.err e, 1)
    | .ok sales_data =>
      let prev_date_to := civil_from_days (prevOrdTo dfd)
      let prev_date_from := civil_from_days (prevOrdFrom dfd dtd)
      match st.search_read_orders
          (perfDomain (strftime_ymd prev_date_from) (strftime_ymd prev_date_to)) with
      | .error e => (.err e, 2)
      | .ok prev_sales_data =>
        let current_total := (sales_data.map (·.amount_total)).sum
        let previous_total := (prev_sales_data.map (·.amount_total)).sum
        let percent_change : ℚ :=
          if previous_total > 0 then ((current_total - previous_total) / previous_total) * 100
          else 0
        match salesGroupedData st params.group_by sales_data with
        | (.error e, gc) => (.err e, 2 + gc)
        | (.ok grouped, gc) =>
          (.ok ⟨params.date_from.raw, params.date_to.raw,
            ⟨sales_data.length, current_total,
             strftime_ymd prev_date_from, strftime_ymd prev_date_to,
             prev_sales_data.length, previous_total, pyRound2 percent_change⟩,
            grouped⟩, 2 + gc)
  | _, _ => (.err invalidDateMsgAnalysisEn, 0)

/-! ## Purchase: `search_purchase_orders` (tools_purchase.py lines 18-88) -/

/-- Pydantic `PurchaseOrderFilter`. -/
structure PurchaseOrderFilter where
  partner_id : Option Int := none
  date_from : Option DateStr := none
  date_to : Option DateStr := none
  state : Option String := none
  limit : Option Int := some 20
  offset : Option Int := some 0
  order : Option String := none

/-- A `purchase.order` record: `date_planned`/`effective_date` carry, for the
full raw string, the `strptime` outcome of their first space-separated
token (`order[...].split(" ")[0]`). -/
structure PurchaseRec where
  id : Int
  name : String
  partner_id : Option (Int × String)
  date_order : String
  amount_total : ℚ
  date_approve : Option String
  date_planned : Option DateStr
  effective_date : Option DateStr
deriving DecidableEq

/-- Collaborator methods used by `search_purchase_orders`. -/
structure PurchaseSearchStore where
  search_read : Domain → Option Int → Option Int → Option String →
    Except String (List PurchaseRec)
  search_count : Domain → Except String Int

structure PurchaseSearchPayload where
  count : Nat
  total_count : Int
  orders : List PurchaseRec
deriving DecidableEq

/-- Domain construction of `search_purchase_orders` (lines 36-56), same
shape as the sales one. -/
def buildPurchaseDomain (filters : PurchaseOrderFilter) : Except String Domain :=
  let domain : Domain := []
  let domain := match filters.partner_id with
    | some p => if p = 0 then domain else domain ++ [("partner_id", "=", DVal.i p)]
    | none => domain
  match dateFilterStep domain "date_order" ">=" filters.date_from invalidDateMsgEn with
  | .error e => .error e
  | .ok domain =>
    match dateFilterStep domain "date_order" "<=" filters.date_to invalidDateMsgEn with
    | .error e => .error e
    | .ok domain =>
      .ok (match filters.state with
        | some s => if s = "" then domain else domain ++ [("state", "=", DVal.s s)]
        | none => domain)

/-- `search_purchase_orders` (tools_purchase.py lines 18-88). -/
def search_purchase_orders (st : PurchaseSearchStore) (filters : PurchaseOrderFilter) :
    PyResult PurchaseSearchPayload × Nat :=
  match buildPurchaseDomain filters with
  | .error e => (.err e, 0)
  | .ok domain =>
    match st.search_read domain filters.limit filters.offset filters.order with
    | .error e => (.err e, 1)
    | .ok orders =>
      match st.search_count domain with
      | .error e => (.err e, 2)
      | .ok total_count => (.ok ⟨orders.length, total_count, orders⟩, 2)

/-! ## Purchase: `create_purchase_order` (tools_purchase.py lines 90-149) -/

/-- Pydantic `PurchaseOrderLineCreate`. -/
structure PurchaseOrderLineCreate where
  product_id : Int
  product_qty : ℚ
  price_unit : Option ℚ := none

/-- Pydantic `PurchaseOrderCreate`. -/
structure PurchaseOrderCreate where
  partner_id : Int
  order_lines : List PurchaseOrderLineCreate
  date_order : Option DateStr := none

/-- One element of the purchase `order_vals["order_line"]`. -/
structure POLineVals where
  product_id : Int
  product_qty : ℚ
  price_unit : Option ℚ
deriving DecidableEq

/-- The purchase `order_vals` dictionary. -/
structure POVals where
  partner_id : Int
  date_order : Option String
  order_line : List POLineVals
deriving DecidableEq

/-- Collaborator methods used by `create_purchase_order`. -/
structure PurchaseCreateStore where
  create_order : POVals → Except String Int
  read_order : Int → Except String (List NameRec)

/-- `create_purchase_order` (tools_purchase.py lines 90-149). -/
def create_purchase_order (st : PurchaseCreateStore) (order : PurchaseOrderCreate) :
    PyResult CreateOrderPayload × Nat :=
  match dateOptValue order.date_order invalidDateMsgEn with
  | .error e => (.err e, 0)
  | .ok dateVal =>
    let order_line := order.order_lines.map (fun line =>
      (⟨line.product_id, line.product_qty, line.price_unit⟩ : POLineVals))
    match st.create_order ⟨order.partner_id, dateVal, order_line⟩ with
    | .error e => (.err e, 1)
    | .ok order_id =>
      match st.read_order order_id with
      | .error e => (.err e, 2)
      | .ok [] => (.err listIndexMsg, 2)
      | .ok (info :: _) => (.ok ⟨order_id, info.name⟩, 2)

/-! ## Purchase: `analyze_supplier_performance` (tools_purchase.py lines 151-283) -/

/-- Pydantic `SupplierPerformanceInput`. -/
structure SupplierPerformanceInput where
  date_from : DateStr
  date_to : DateStr
  supplier_ids : Option (List Int) := none

/-- Collaborator methods used by `analyze_supplier_performance`. -/
structure SupplierPerfStore where
  search_read_orders : Domain → Except String (List PurchaseRec)

/-- The confirmed-purchase domain (lines 176-184), with the truthiness
test on `supplier_ids` (an empty list adds no predicate). -/
def supplierDomain (params : SupplierPerformanceInput) : Domain :=
  [("date_order", ">=", DVal.s params.date_from.raw),
   ("date_order", "<=", DVal.s params.date_to.raw),
   ("state", "in", DVal.strs ["purchase", "done"])] ++
  (match params.supplier_ids with
    | some l => if l = [] then [] else [("partner_id", "in", DVal.ids l)]
    | none => [])

/-- `str(e)` of the `ValueError` raised by `strptime` on a date kept in a
fetched record (quoting of the Python message abstracted). -/
def strptimeErrMsg (s : String) : String :=
  "time data " ++ s ++ " does not match format %Y-%m-%d"

/-- One order's entry in a supplier's `orders` list (lines 223-231). -/
structure SupOrderInfo where
  id : Int
  name : String
  amount : ℚ
  date_order : String
  planned_date : String
  effective_date : String
  delay_days : Int
deriving DecidableEq

/-- The per-supplier accumulator dictionary (lines 203-211);
`avg_delay_days` starts at 0 and is recomputed in the second loop. -/
structure SupAcc where
  name : String
  order_count : Nat
  total_amount : ℚ
  orders : List SupOrderInfo
  on_time_delivery_count : Nat
  late_delivery_count : Nat
deriving DecidableEq

/-- Replace the value at a key already present in the association list. -/
def updateExistingAssoc {α : Type} (acc : List (Int × α)) (key : Int) (f : α → α) :
    List (Int × α) :=
  acc.map (fun kv => if kv.1 = key then (kv.1, f kv.2) else kv)

/-- The grouping loop of `analyze_supplier_performance` (lines 197-238):
count/total per supplier; when both `effective_date` and `date_planned`
are truthy, `strptime` both (a parse failure raises out of the tool body)
and record the delay. -/
def supplierLoop : List PurchaseRec → List (Int × SupAcc) →
    Except String (List (Int × SupAcc))
  | [], acc => .ok acc
  | order :: rest, acc =>
    let sid := match order.partner_id with | some pr => pr.1 | none => 0
    let sname := match order.partner_id with | some pr => pr.2 | none => "Unknown"
    let acc := updateAssoc acc sid ⟨sname, 0, 0, [], 0, 0⟩ (fun a =>
      { a with order_count := a.order_count + 1,
               total_amount := a.total_amount + order.amount_total })
    match order.effective_date, order.date_planned with
    | some eff, some plan =>
      if eff.raw = "" ∨ plan.raw = "" then supplierLoop rest acc
      else
        match eff.parsed, plan.parsed with
        | some effD, some planD =>
          let delay_days := days_from_civil effD - days_from_civil planD
          let info : SupOrderInfo :=
            ⟨order.id, order.name, order.amount_total, order.date_order,
             plan.raw, eff.raw, delay_days⟩
          supplierLoop rest (updateExistingAssoc acc sid (fun a =>
            let a := { a with orders := a.orders ++ [info] }
            if delay_days ≤ 0 then
              { a with on_time_delivery_count := a.on_time_delivery_count + 1 }
            else
              { a with late_delivery_count := a.late_delivery_count + 1 }))
        | none, _ => .error (strptimeErrMsg eff.raw)
        | some _, none => .error (strptimeErrMsg plan.raw)
    | _, _ => supplierLoop rest acc

/-- A supplier's final metrics (after lines 241-255). -/
structure SupOut where
  name : String
  order_count : Nat
  total_amount : ℚ
  on_time_delivery_count : Nat
  late_delivery_count : Nat
  avg_delay_days : ℚ
  on_time_delivery_rate : ℚ
deriving DecidableEq

/-- The metrics loop (lines 241-255): average delay over the recorded
orders (0 when none), on-time rate (0 when no deliveries), `orders`
dropped. -/
def supplierFinish (kv : Int × SupAcc) : Int × SupOut :=
  let a := kv.2
  let delay_days := a.orders.map (·.delay_days)
  let avg : ℚ :=
    if delay_days = [] then 0
    else ((delay_days.map (fun n => (n : ℚ))).sum) / (delay_days.length : ℚ)
  let total_deliveries := a.on_time_delivery_count + a.late_delivery_count
  let rate : ℚ :=
    if total_deliveries > 0 then
      ((a.on_time_delivery_count : ℚ) / (total_deliveries : ℚ)) * 100
    else 0
  (kv.1, ⟨a.name, a.order_count, a.total_amount,
    a.on_time_delivery_count, a.late_delivery_count, avg, rate⟩)

structure SupplierPerfPayload where
  period_from : String
  period_to : String
  supplier_count : Nat
  order_count : Nat
  total_amount : ℚ
  suppliers : List (Int × SupOut)
deriving DecidableEq

/-- `analyze_supplier_performance` (tools_purchase.py lines 151-283). -/
def analyze_supplier_performance (st : SupplierPerfStore)
    (params : SupplierPerformanceInput) : PyResult SupplierPerfPayload × Nat :=
  match params.date_from.parsed, params.date_to.parsed with
  | some _, some _ =>
    match st.search_read_orders (supplierDomain params) with
    | .error e => (.err e, 1)
    | .ok purchase_data =>
      match supplierLoop purchase_data [] with
      | .error e => (.err e, 1)
      | .ok supplier_data =>
        let top_suppliers :=
          sortByDesc (fun kv => kv.2.total_amount) (supplier_data.map supplierFinish)
        (.ok ⟨params.date_from.raw, params.date_to.raw, supplier_data.length,
          purchase_data.length, (purchase_data.map (·.amount_total)).sum,
          top_suppliers⟩, 1)
  | _, _ => (.err invalidDateMsgAnalysisEn, 0)

/-! ## Accounting: `analyze_financial_ratios` (tools_accountings.py lines 178-411) -/

/-- Pydantic `FinancialRatioInput`. -/
structure FinancialRatioInput where
  date_from : DateStr
  date_to : DateStr
  ratios : List String

/-- An `account.move.line` record with its balance. -/
structure BalanceRec where
  account_id : Option (Int × String)
  balance : ℚ
deriving DecidableEq

/-- Collaborator methods used by `analyze_financial_ratios`. -/
structure RatioStore where
  search_read_move_lines : Domain → Except String (List BalanceRec)

/-- Balance domain for an internal group over the period, restricted to
posted entries (lines 210-215 and the analogous blocks). -/
def ratioBaseDomain (grp date_from date_to : String) : Domain :=
  [("account_id.user_type_id.internal_group", "=", DVal.s grp),
   ("date", ">=", DVal.s date_from), ("date", "<=", DVal.s date_to),
   ("parent_state", "=", DVal.s "posted")]

/-- As `ratioBaseDomain` with the account-type predicate inserted second
(lines 226-232 and 259-265). -/
def ratioTypedDomain (grp typ date_from date_to : String) : Domain :=
  [("account_id.user_type_id.internal_group", "=", DVal.s grp),
   ("account_id.user_type_id.type", "=", DVal.s typ),
   ("date", ">=", DVal.s date_from), ("date", "<=", DVal.s date_to),
   ("parent_state", "=", DVal.s "posted")]

/-- `ratios["liquidity"]` (lines 327-337). -/
structure LiquidityRatios where
  current_ratio : ℚ
  current_assets : ℚ
  current_liabilities : ℚ
deriving DecidableEq

/-- `ratios["profitability"]` (lines 339-361). -/
structure ProfitabilityRatios where
  return_on_assets : ℚ
  return_on_equity : ℚ
  net_profit_margin : ℚ
  net_income : ℚ
  total_income : ℚ
deriving DecidableEq

/-- `ratios["debt"]` (lines 363-379). -/
structure DebtRatios where
  debt_ratio : ℚ
  leverage_ratio : ℚ
  total_liabilities : ℚ
  total_equity : ℚ
deriving DecidableEq

/-- `ratios["efficiency"]` (lines 381-389). -/
structure EfficiencyRatios where
  asset_turnover : ℚ
deriving DecidableEq

/-- The `ratios` dictionary: a category key is present exactly when it was
requested. -/
structure RatiosOut where
  liquidity : Option LiquidityRatios := none
  profitability : Option ProfitabilityRatios := none
  debt : Option DebtRatios := none
  efficiency : Option EfficiencyRatios := none
deriving DecidableEq

/-- The `summary` part of the ratio payload (lines 397-404). -/
structure RatioSummary where
  total_assets : ℚ
  total_liabilities : ℚ
  total_equity : ℚ
  total_income : ℚ
  total_expenses : ℚ
  net_income : ℚ
deriving DecidableEq

structure RatioPayload where
  period_from : String
  period_to : String
  summary : RatioSummary
  ratios : RatiosOut
deriving DecidableEq

/-- Ratio derivation from the seven balance sums (tools_accountings.py
lines 324-406): net income computed once, then each requested category
with its division-by-zero guards, liabilities and expenses reported as
absolute magnitudes. -/
def computeRatios (requested : List String)
    (total_assets current_assets total_liabilities current_liabilities
     total_equity total_income total_expenses : ℚ) : RatioSummary × RatiosOut :=
  let net_income := total_income - total_expenses
  let liquidity : Option LiquidityRatios :=
    if requested.contains "liquidity" then
      some ⟨if current_liabilities ≠ 0 then current_assets / |current_liabilities| else 0,
            current_assets, |current_liabilities|⟩
    else none
  let profitability : Option ProfitabilityRatios :=
    if requested.contains "profitability" then
      some ⟨if total_assets ≠ 0 then (net_income / total_assets) * 100 else 0,
            if total_equity ≠ 0 then (net_income / total_equity) * 100 else 0,
            if total_income ≠ 0 then (net_income / total_income) * 100 else 0,
            net_income, total_income⟩
    else none
  let debt : Option DebtRatios :=
    if requested.contains "debt" then
      some ⟨if total_assets ≠ 0 then (|total_liabilities| / total_assets) * 100 else 0,
            if total_equity ≠ 0 then |total_liabilities| / total_equity else 0,
            |total_liabilities|, total_equity⟩
    else none
  let efficiency : Option EfficiencyRatios :=
    if requested.contains "efficiency" then
      some ⟨if total_assets ≠ 0 then total_income / total_assets else 0⟩
    else none
  (⟨total_assets, |total_liabilities|, total_equity,
    total_income, |total_expenses|, net_income⟩,
   ⟨liquidity, profitability, debt, efficiency⟩)

/-- `analyze_financial_ratios` (tools_accountings.py lines 178-411): date
validation, seven balance queries, net income, then each requested
category with its division-by-zero guards. -/
def analyze_financial_ratios (st : RatioStore) (params : FinancialRatioInput) :
    PyResult RatioPayload × Nat :=
  match params.date_from.parsed, params.date_to.parsed with
  | some _, some _ =>
    let date_from := params.date_from.raw
    let date_to := params.date_to.raw
    match st.search_read_move_lines (ratioBaseDomain "asset" date_from date_to) with
    | .error e => (.err e, 1)
    | .ok assets_data =>
      match st.search_read_move_lines
          (ratioTypedDomain "asset" "liquidity" date_from date_to) with
      | .error e => (.err e, 2)
      | .ok current_assets_data =>
        match st.search_read_move_lines (ratioBaseDomain "liability" date_from date_to) with
        | .error e => (.err e, 3)
        | .ok liabilities_data =>
          match st.search_read_move_lines
              (ratioTypedDomain "liability" "payable" date_from date_to) with
          | .error e => (.err e, 4)
          | .ok current_liabilities_data =>
            match st.search_read_move_lines (ratioBaseDomain "equity" date_from date_to) with
            | .error e => (.err e, 5)
            | .ok equity_data =>
              match st.search_read_move_lines (ratioBaseDomain "income" date_from date_to) with
              | .error e => (.err e, 6)
              | .ok income_data =>
                match st.search_read_move_lines
                    (ratioBaseDomain "expense" date_from date_to) with
                | .error e => (.err e, 7)
                | .ok expense_data =>
                  let r := computeRatios params.ratios
                    ((assets_data.map (·.balance)).sum)
                    ((current_assets_data.map (·.balance)).sum)
                    ((liabilities_data.map (·.balance)).sum)
                    ((current_liabilities_data.map (·.balance)).sum)
                    ((equity_data.map (·.balance)).sum)
                    ((income_data.map (·.balance)).sum)
                    ((expense_data.map (·.balance)).sum)
                  (.ok ⟨date_from, date_to, r.1, r.2⟩, 7)
  | _, _ => (.err invalidDateMsgAnalysisEs, 0)

/-! ## Inventory: `check_product_availability` (tools_inventory.py lines 18-110) -/

/-- Pydantic `ProductAvailabilityInput`. -/
structure ProductAvailabilityInput where
  product_ids : List Int
  location_id : Option Int := none

/-- A `product.product` record from the initial existence query. -/
structure ProdInfoRec where
  id : Int
  name : String
  default_code : Option String
  type : String
  uom_id : Option (Int × String)
deriving DecidableEq

/-- A `read` result with the four availability quantities. -/
structure AvailRec where
  qty_available : ℚ
  virtual_available : ℚ
  incoming_qty : ℚ
  outgoing_qty : ℚ
deriving DecidableEq

/-- A `stock.location` record. -/
structure LocRec where
  id : Int
  name : String
  complete_name : String
deriving DecidableEq

/-- Collaborator methods used by `check_product_availability`; the second
argument of `read_availability` is the `location` context entry (present
when `params.location_id` is truthy). -/
structure AvailStore where
  search_read_products : Domain → Except String (List ProdInfoRec)
  read_availability : Int → Option Int → Except String (List AvailRec)
  search_read_location : Domain → Except String (List LocRec)

/-- One product's entry in the availability dictionary: quantities, or a
`Product not found` marker, or the inner-exception entry carrying the
collaborator error message. -/
inductive AvailEntry where
  | found (name : String) (a : AvailRec)
  | notFound (name : String)
  | failed (name : String) (msg : String)
deriving DecidableEq

/-- `location_info`: a fetched record, or the `Unknown location` fallback
dictionary built by the inner `except`. -/
inductive LocationInfo where
  | info (l : LocRec)
  | unknown (id : Int)
deriving DecidableEq

structure AvailPayload where
  products : List (Int × AvailEntry)
  location : Option LocationInfo
deriving DecidableEq

/-- `product_names.get(pid, f"Product {pid}")`: the dict comprehension keeps
the last record with a given id, hence the reversed lookup. -/
def productNameFor (products : List ProdInfoRec) (pid : Int) : String :=
  match products.reverse.find? (fun p => p.id = pid) with
  | some p => p.name
  | none => "Product " ++ toString pid

/-- The per-product loop (lines 51-85): one `read` per requested id, the
inner `try` turning a collaborator error into an error entry. -/
def availLoop (st : AvailStore) (locCtx : Option Int) (products : List ProdInfoRec) :
    List Int → Nat → List (Int × AvailEntry) × Nat
  | [], calls => ([], calls)
  | pid :: rest, calls =>
    let entry := match st.read_availability pid locCtx with
      | .error e => AvailEntry.failed (productNameFor products pid) e
      | .ok [] => AvailEntry.notFound (productNameFor products pid)
      | .ok (info :: _) => AvailEntry.found (productNameFor products pid) info
    let (restEntries, c) := availLoop st locCtx products rest (calls + 1)
    ((pid, entry) :: restEntries, c)

/-- `check_product_availability` (tools_inventory.py lines 18-110). -/
def check_product_availability (st : AvailStore) (params : ProductAvailabilityInput) :
    PyResult AvailPayload × Nat :=
  match st.search_read_products [("id", "in", DVal.ids params.product_ids)] with
  | .error e => (.err e, 1)
  | .ok products =>
    if products = [] then (.err "No products found with the provided IDs", 1)
    else
      let locCtx : Option Int := match params.location_id with
        | some l => if l = 0 then none else some l
        | none => none
      let (entries, c) := availLoop st locCtx products params.product_ids 1
      match locCtx with
      | none => (.ok ⟨entries, none⟩, c)
      | some l =>
        match st.search_read_location [("id", "=", DVal.i l)] with
        | .error _ => (.ok ⟨entries, some (.unknown l)⟩, c + 1)
        | .ok [] => (.ok ⟨entries, none⟩, c + 1)
        | .ok (ld :: _) => (.ok ⟨entries, some (.info ld)⟩, c + 1)

/-! ## Inventory: `create_inventory_adjustment` (tools_inventory.py lines 112-228) -/

/-- Pydantic `InventoryLineAdjustment`. -/
structure InventoryLineAdjustment where
  product_id : Int
  location_id : Int
  product_qty : ℚ

/-- Pydantic `InventoryAdjustmentCreate`. -/
structure InventoryAdjustmentCreate where
  name : String
  adjustment_lines : List InventoryLineAdjustment
  date : Option DateStr := none

/-- `inventory_vals` for the legacy `stock.inventory` flow. -/
structure InvVals where
  name : String
  date : Option String
deriving DecidableEq

/-- A `stock.inventory.line` create dictionary. -/
structure InvLineVals where
  inventory_id : Int
  product_id : Int
  location_id : Int
  product_qty : ℚ
deriving DecidableEq

/-- A `stock.quant` record. -/
structure QuantRec where
  id : Int
  quantity : ℚ
deriving DecidableEq

/-- A `stock.quant` create dictionary. -/
structure QuantVals where
  product_id : Int
  location_id : Int
  inventory_quantity : ℚ
deriving DecidableEq

/-- Collaborator methods used by `create_inventory_adjustment`. -/
structure AdjustStore where
  model_search_count : Domain → Except String Int
  create_inventory : InvVals → Except String Int
  create_inventory_line : InvLineVals → Except String Int
  action_validate : Int → Except String Unit
  search_read_quants : Domain → Except String (List QuantRec)
  write_quant : Int → ℚ → Except String Unit
  create_quant : QuantVals → Except String Int
  action_apply_inventory : List Int → Except String Unit

/-- The two success payload shapes of the adjustment tool. -/
inductive AdjustPayload where
  | inventory (inventory_id : Int) (name : String)
  | quants (quant_ids : List Int) (name : String)
deriving DecidableEq

/-- Legacy-flow line loop (lines 159-167): one create per line. -/
def invLinesLoop (st : AdjustStore) (inventory_id : Int) :
    List InventoryLineAdjustment → Nat → Except String Unit × Nat
  | [], calls => (.ok (), calls)
  | line :: rest, calls =>
    match st.create_inventory_line
        ⟨inventory_id, line.product_id, line.location_id, line.product_qty⟩ with
    | .error e => (.error e, calls + 1)
    | .ok _ => invLinesLoop st inventory_id rest (calls + 1)

/-- Quant-flow loop (lines 183-214): search the quant, then write it or
create a new one, accumulating the ids. -/
def quantLoop (st : AdjustStore) :
    List InventoryLineAdjustment → List Int → Nat → Except String (List Int) × Nat
  | [], ids, calls => (.ok ids, calls)
  | line :: rest, ids, calls =>
    match st.search_read_quants
        [("product_id", "=", DVal.i line.product_id),
         ("location_id", "=", DVal.i line.location_id)] with
    | .error e => (.error e, calls + 1)
    | .ok [] =>
      match st.create_quant ⟨line.product_id, line.location_id, line.product_qty⟩ with
      | .error e => (.error e, calls + 2)
      | .ok quant_id => quantLoop st rest (ids ++ [quant_id]) (calls + 2)
    | .ok (q :: _) =>
      match st.write_quant q.id line.product_qty with
      | .error e => (.error e, calls + 2)
      | .ok _ => quantLoop st rest (ids ++ [q.id]) (calls + 2)

/-- `create_inventory_adjustment` (tools_inventory.py lines 112-228): the
`ir.model` probe decides between the legacy `stock.inventory` flow and the
`stock.quant` flow. -/
def create_inventory_adjustment (st : AdjustStore)
    (adjustment : InventoryAdjustmentCreate) : PyResult AdjustPayload × Nat :=
  match st.model_search_count [("model", "=", DVal.s "stock.inventory")] with
  | .error e => (.err e, 1)
  | .ok n =>
    if n > 0 then
      match dateOptValue adjustment.date invalidDateMsgEn with
      | .error e => (.err e, 1)
      | .ok dateVal =>
        match st.create_inventory ⟨adjustment.name, dateVal⟩ with
        | .error e => (.err e, 2)
        | .ok inventory_id =>
          match invLinesLoop st inventory_id adjustment.adjustment_lines 2 with
          | (.error e, c) => (.err e, c)
          | (.ok _, c) =>
            match st.action_validate inventory_id with
            | .error e => (.err e, c + 1)
            | .ok _ => (.ok (.inventory inventory_id adjustment.name), c + 1)
    else
      match quantLoop st adjustment.adjustment_lines [] 1 with
      | (.error e, c) => (.err e, c)
      | (.ok result_ids, c) =>
        match st.action_apply_inventory result_ids with
        | .error e => (.err e, c + 1)
        | .ok _ => (.ok (.quants result_ids adjustment.name), c + 1)

/-! ## Inventory: `analyze_inventory_turnover` (tools_inventory.py lines 230-431) -/

/-- Pydantic `InventoryTurnoverInput`. -/
structure InventoryTurnoverInput where
  date_from : DateStr
  date_to : DateStr
  product_ids : Option (List Int) := none
  category_id : Option Int := none

/-- A `product.product` record of the turnover analysis. -/
structure ProductRec where
  id : Int
  name : String
  default_code : Option String
  categ_id : Option (Int × String)
  standard_price : ℚ
deriving DecidableEq

/-- A `stock.move` record: `price_unit` may be absent or falsy. -/
structure MoveRec where
  product_uom_qty : ℚ
  price_unit : Option ℚ
deriving DecidableEq

/-- A valuation `read` result (`stock_value`). -/
structure ValRec where
  stock_value : ℚ
deriving DecidableEq

/-- A quantity `read` result (`qty_available`). -/
structure QtyRec where
  qty_available : ℚ
deriving DecidableEq

/-- Collaborator methods used by `analyze_inventory_turnover`; the string
argument of the two `read` methods is the `to_date` context value. -/
structure TurnoverStore where
  search_read_products : Domain → Except String (List ProductRec)
  search_read_moves : Domain → Except String (List MoveRec)
  read_stock_value : Int → String → Except String (List ValRec)
  read_qty_available : Int → String → Except String (List QtyRec)

/-- Product domain (lines 255-261): storable products, with truthiness
tests on `product_ids` and `category_id`. -/
def turnoverProductDomain (params : InventoryTurnoverInput) : Domain :=
  [("type", "=", DVal.s "product")] ++
  (match params.product_ids with
    | some l => if l = [] then [] else [("id", "in", DVal.ids l)]
    | none => []) ++
  (match params.category_id with
    | some c => if c = 0 then [] else [("categ_id", "=", DVal.i c)]
    | none => [])

/-- Outgoing-move domain for one product (lines 280-285). -/
def outgoingDomain (pid : Int) (date_from date_to : String) : Domain :=
  [("product_id", "=", DVal.i pid), ("date", ">=", DVal.s date_from),
   ("date", "<=", DVal.s date_to), ("location_dest_id.usage", "=", DVal.s "customer")]

/-- The per-product turnover record (lines 379-387). -/
structure TurnoverEntry where
  id : Int
  name : String
  default_code : Option String
  category : String
  cogs : ℚ
  avg_inventory_value : ℚ
  turnover_ratio : ℚ
  days_inventory : ℚ
deriving DecidableEq

/-- Fallback estimation of the average inventory value (lines 333-364):
mean of the `qty_available` readings at both period ends times the
standard cost; a collaborator error here propagates to the outer
handler. -/
def fallbackAvgValue (st : TurnoverStore) (pid : Int) (standard_price : ℚ)
    (date_from date_to : String) (calls : Nat) : Except String ℚ × Nat :=
  match st.read_qty_available pid date_from with
  | .error e => (.error e, calls + 1)
  | .ok qty_start =>
    match st.read_qty_available pid date_to with
    | .error e => (.error e, calls + 2)
    | .ok qty_end =>
      let start_qty := match qty_start with | [] => 0 | r :: _ => r.qty_available
      let end_qty := match qty_end with | [] => 0 | r :: _ => r.qty_available
      (.ok (((start_qty + end_qty) / 2) * standard_price), calls + 2)

/-- Average inventory value (lines 299-364): valuation `read` at both
period ends inside a `try`, any failure of either call switching to the
quantity-based fallback. -/
def avgInventoryValue (st : TurnoverStore) (pid : Int) (standard_price : ℚ)
    (date_from date_to : String) (calls : Nat) : Except String ℚ × Nat :=
  match st.read_stock_value pid date_from with
  | .error _ => fallbackAvgValue st pid standard_price date_from date_to (calls + 1)
  | .ok valuation_start =>
    match st.read_stock_value pid date_to with
    | .error _ => fallbackAvgValue st pid standard_price date_from date_to (calls + 2)
    | .ok valuation_end =>
      let start_value := match valuation_start with | [] => 0 | r :: _ => r.stock_value
      let end_value := match valuation_end with | [] => 0 | r :: _ => r.stock_value
      (.ok ((start_value + end_value) / 2), calls + 2)

/-- One product's turnover metrics (lines 276-387): COGS over outgoing
moves (`price_unit or standard_price` — the falsy-0 unit price falls back
to the standard cost), the average inventory value, then the two guarded
ratios. -/
def productTurnover (st : TurnoverStore) (date_from date_to : String)
    (days_in_period : Int) (product : ProductRec) (calls : Nat) :
    Except String TurnoverEntry × Nat :=
  match st.search_read_moves (outgoingDomain product.id date_from date_to) with
  | .error e => (.error e, calls + 1)
  | .ok outgoing_moves =>
    let cogs := (outgoing_moves.map (fun mv => mv.product_uom_qty *
        (match mv.price_unit with
          | some p => if p = 0 then product.standard_price else p
          | none => product.standard_price))).sum
    match avgInventoryValue st product.id product.standard_price date_from date_to
        (calls + 1) with
    | (.error e, c) => (.error e, c)
    | (.ok avg_inventory_value, c) =>
      let turnover_ratio : ℚ :=
        if avg_inventory_value > 0 then cogs / avg_inventory_value else 0
      let days_inventory : ℚ :=
        if turnover_ratio > 0 then (days_in_period : ℚ) / turnover_ratio else 0
      (.ok ⟨product.id, product.name, product.default_code,
        (match product.categ_id with | some cat => cat.2 | none => "Uncategorized"),
        cogs, avg_inventory_value, turnover_ratio, days_inventory⟩, c)

/-- The product loop of the turnover analysis (lines 276-387). -/
def turnoverLoop (st : TurnoverStore) (date_from date_to : String)
    (days_in_period : Int) :
    List ProductRec → Nat → Except String (List (Int × TurnoverEntry)) × Nat
  | [], calls => (.ok [], calls)
  | p :: rest, calls =>
    match productTurnover st date_from date_to days_in_period p calls with
    | (.error e, c) => (.error e, c)
    | (.ok entry, c) =>
      match turnoverLoop st date_from date_to days_in_period rest c with
      | (.error e, c2) => (.error e, c2)
      | (.ok entries, c2) => (.ok ((p.id, entry) :: entries), c2)

structure TurnoverSummary where
  product_count : Nat
  total_cogs : ℚ
  total_avg_inventory_value : ℚ
  overall_turnover_ratio : ℚ
  overall_days_inventory : ℚ
deriving DecidableEq

structure TurnoverPayload where
  period_from : String
  period_to : String
  period_days : Int
  summary : TurnoverSummary
  products : List (Int × TurnoverEntry)
deriving DecidableEq

/-- `analyze_inventory_turnover` (tools_inventory.py lines 230-431). -/
def analyze_inventory_turnover (st : TurnoverStore) (params : InventoryTurnoverInput) :
    PyResult TurnoverPayload × Nat :=
  match params.date_from.parsed, params.date_to.parsed with
  | some dfd, some dtd =>
    match st.search_read_products (turnoverProductDomain params) with
    | .error e => (.err e, 1)
    | .ok products =>
      if products = [] then (.err "No products found with the specified criteria", 1)
      else
        let days_in_period := days_from_civil dtd - days_from_civil dfd + 1
        match turnoverLoop st params.date_from.raw params.date_to.raw days_in_period
            products 1 with
        | (.error e, c) => (.err e, c)
        | (.ok product_turnover, c) =>
          let sorted_products := sortByDesc (fun kv => kv.2.turnover_ratio) product_turnover
          let total_cogs := (product_turnover.map (·.2.cogs)).sum
          let total_avg_value := (product_turnover.map (·.2.avg_inventory_value)).sum
          let overall_turnover : ℚ :=
            if total_avg_value > 0 then total_cogs / total_avg_value else 0
          let overall_days : ℚ :=
            if overall_turnover > 0 then (days_in_period : ℚ) / overall_turnover else 0
          (.ok ⟨params.date_from.raw, params.date_to.raw, days_in_period,
            ⟨products.length, total_cogs, total_avg_value, overall_turnover, overall_days⟩,
            sorted_products⟩, c)
  | _, _ => (.err invalidDateMsgAnalysisEn, 0)

/-! ## Helpers for the claim theorems -/

/-- A boundary result is one of the two permitted dictionary shapes. -/
def isResultShaped {α : Type} (r : PyResult α) : Prop :=
  (∃ p, r = .ok p) ∨ (∃ m, r = .err m)

lemma pyResult_shape {α : Type} (r : PyResult α) : isResultShaped r := by
  cases r with
  | ok p => exact Or.inl ⟨p, rfl⟩
  | err m => exact Or.inr ⟨m, rfl⟩

/-- An optional date field that does not trigger the invalid-date branch:
absent, empty (falsy) or parseable. -/
def dateFieldOk (d : Option DateStr) : Prop :=
  ∀ ds, d = some ds → ds.raw = "" ∨ ds.parsed.isSome = true

lemma dateFilterStep_ok {domain : Domain} {field op : String} {d : Option DateStr}
    {msg : String → String} (h : dateFieldOk d) :
    ∃ domain2, dateFilterStep domain field op d msg = .ok domain2 := by
  match d with
  | none => exact ⟨domain, rfl⟩
  | some ds =>
    rcases h ds rfl with he | hp
    · exact ⟨domain, by simp [dateFilterStep, he]⟩
    · rcases Option.isSome_iff_exists.mp hp with ⟨dt, hdt⟩
      by_cases he : ds.raw = ""
      · exact ⟨domain, by simp [dateFilterStep, he]⟩
      · exact ⟨domain ++ [(field, op, DVal.s ds.raw)], by simp [dateFilterStep, he, hdt]⟩

lemma dateOptValue_ok {d : Option DateStr} {msg : String → String}
    (h : dateFieldOk d) : ∃ v, dateOptValue d msg = .ok v := by
  match d with
  | none => exact ⟨none, rfl⟩
  | some ds =>
    rcases h ds rfl with he | hp
    · exact ⟨none, by simp [dateOptValue, he]⟩
    · rcases Option.isSome_iff_exists.mp hp with ⟨dt, hdt⟩
      by_cases he : ds.raw = ""
      · exact ⟨none, by simp [dateOptValue, he]⟩
      · exact ⟨some ds.raw, by simp [dateOptValue, he, hdt]⟩

lemma dateOptValue_bad {ds : DateStr} {msg : String → String}
    (h1 : ds.raw ≠ "") (h2 : ds.parsed = none) :
    dateOptValue (some ds) msg = .error (msg ds.raw) := by
  simp [dateOptValue, h1, h2]

/-! ## Claim C4 -/

/-- C4: for every valid date pair with `date_from ≤ date_to` (compared as
day ordinals), the comparison window of `analyze_sales_performance` is
`prior_to = date_from − 1 day`, `prior_from = prior_to − (date_to −
date_from)`: it ends strictly before the current window starts (no
overlap, immediately preceding) and spans the same number of days. -/
theorem claim_C4 (dfd dtd : PyDate)
    (h : days_from_civil dfd ≤ days_from_civil dtd) :
    prevOrdTo dfd = days_from_civil dfd - 1 ∧
    prevOrdFrom dfd dtd =
      prevOrdTo dfd - (days_from_civil dtd - days_from_civil dfd) ∧
    prevOrdTo dfd < days_from_civil dfd ∧
    prevOrdTo dfd - prevOrdFrom dfd dtd =
      days_from_civil dtd - days_from_civil dfd ∧
    prevOrdFrom dfd dtd ≤ prevOrdTo dfd := by
  unfold prevOrdFrom prevOrdTo
  omega

/-- C4 witness: the window property at the concrete pair 2024-02-01 /
2024-02-29. -/
theorem claim_C4_witness :
    prevOrdTo ⟨2024, 2, 1⟩ = days_from_civil ⟨2024, 2, 1⟩ - 1 ∧
    prevOrdFrom ⟨2024, 2, 1⟩ ⟨2024, 2, 29⟩ = prevOrdTo ⟨2024, 2, 1⟩ -
      (days_from_civil ⟨2024, 2, 29⟩ - days_from_civil ⟨2024, 2, 1⟩) ∧
    prevOrdTo ⟨2024, 2, 1⟩ < days_from_civil ⟨2024, 2, 1⟩ ∧
    prevOrdTo ⟨2024, 2, 1⟩ - prevOrdFrom ⟨2024, 2, 1⟩ ⟨2024, 2, 29⟩ =
      days_from_civil ⟨2024, 2, 29⟩ - days_from_civil ⟨2024, 2, 1⟩ ∧
    prevOrdFrom ⟨2024, 2, 1⟩ ⟨2024, 2, 29⟩ ≤ prevOrdTo ⟨2024, 2, 1⟩ :=
  claim_C4 ⟨2024, 2, 1⟩ ⟨2024, 2, 29⟩ (by decide)

/-! ## Claim C5 -/

/-- A store stub whose searches all succeed with no records. -/
def perfStubStore : SalesPerfStore := ⟨fun _ => .ok [], fun _ => .ok []⟩

/-- The input of the spec's PeriodComparator example. -/
def perfInputFeb : SalesPerformanceInput :=
  ⟨⟨"2024-02-01", some ⟨2024, 2, 1⟩⟩, ⟨"2024-02-29", some ⟨2024, 2, 29⟩⟩, none⟩

/-- The previous window reported in a successful analysis payload. -/
def prevWindowOf : PyResult SalesPerfPayload → Option (String × String)
  | .ok p => some (p.summary.prev_from, p.summary.prev_to)
  | .err _ => none

/-- C5 counterexample: on `date_from=2024-02-01, date_to=2024-02-29` the
code computes the prior window 2024-01-03 .. 2024-01-31 (a 29-day window),
not the 2023-12-04 .. 2024-01-31 window the claim states. -/
theorem claim_C5_counterexample :
    prevWindowOf (analyze_sales_performance perfStubStore perfInputFeb).1 =
      some ("2024-01-03", "2024-01-31") ∧
    some (("2024-01-03", "2024-01-31") : String × String) ≠
      some (("2023-12-04", "2024-01-31") : String × String) := by
  constructor
  · simp only [analyze_sales_performance, perfStubStore, perfInputFeb, salesGroupedData,
      prevWindowOf]
    decide
  · decide

/-- C5 amended: for the input `date_from=2024-02-01, date_to=2024-02-29`
the prior comparison window computed by `analyze_sales_performance` is
2024-01-03 through 2024-01-31. -/
theorem claim_C5_amended :
    prevWindowOf (analyze_sales_performance perfStubStore perfInputFeb).1 =
      some ("2024-01-03", "2024-01-31") := by
  simp only [analyze_sales_performance, perfStubStore, perfInputFeb, salesGroupedData,
    prevWindowOf]
  decide

/-! ## Claim C9 -/

/-- A create store stub that assigns id 42 and reads back a fixed
name/state. -/
def jcStubStore : JournalCreateStore :=
  ⟨fun _ => .ok 42, fun _ => .ok [⟨"MISC/0001", "draft"⟩]⟩

/-- The claim's journal entry: debits `[100.00, 0]`, credits
`[0, 100.005]`. -/
def entryC9 : JournalEntryCreate :=
  ⟨none, 1, none, [⟨10, none, none, 100, 0⟩, ⟨11, none, none, 0, 100005 / 1000⟩]⟩

lemma pyRound2_100005 : pyRound2 (100005 / 1000) = 100 := by
  norm_num [pyRound2, roundHalfEvenZ, Int.floor_eq_iff]

/-- C9 counterexample: the entry with debits `[100.00, 0]` and credits
`[0, 100.005]` is NOT rejected — `round(100.005, 2)` is `100.00` (ties go
to even, and `100.00` has even last kept digit), equal to the rounded
debit total, so creation reaches the store and succeeds. -/
theorem claim_C9_counterexample :
    (create_journal_entry jcStubStore entryC9).1 = .ok ⟨42, "MISC/0001", "draft"⟩ ∧
    pyRound2 (100005 / 1000) = 100 ∧ (100 : ℚ) ≠ 10001 / 100 := by
  refine ⟨?_, pyRound2_100005, by norm_num⟩
  norm_num [create_journal_entry, entryC9, jcStubStore, dateOptValue, pyRound2,
    roundHalfEvenZ, Int.floor_eq_iff]

/-- C9 amended: both totals of that entry round to `100.00` under
Python's round-half-even `round(x, 2)` (the rounded credit total is
`100.00`, not `100.01`), so the balance check passes and
`create_journal_entry` accepts the entry, calling the store twice. -/
theorem claim_C9_amended :
    pyRound2 ((entryC9.lines.map (·.debit)).sum) = 100 ∧
    pyRound2 ((entryC9.lines.map (·.credit)).sum) = 100 ∧
    create_journal_entry jcStubStore entryC9 = (.ok ⟨42, "MISC/0001", "draft"⟩, 2) := by
  refine ⟨?_, ?_, ?_⟩
  · norm_num [entryC9, pyRound2, roundHalfEvenZ, Int.floor_eq_iff]
  · norm_num [entryC9, pyRound2, roundHalfEvenZ, Int.floor_eq_iff]
  · norm_num [create_journal_entry, entryC9, jcStubStore, dateOptValue, pyRound2,
      roundHalfEvenZ, Int.floor_eq_iff]

/-! ## Claim C2 -/

/-- A balanced entry (no lines) carrying a malformed date string. -/
def entryC2bad : JournalEntryCreate := ⟨none, 1, some ⟨"2024-13-45", none⟩, []⟩

/-- C2 counterexample: an entry whose rounded totals are equal (both 0)
but whose optional date string is malformed fails on the date validation
with zero store calls — so "the rounded totals are equal" does not imply
"creation proceeds to the store". -/
theorem claim_C2_counterexample :
    pyRound2 ((entryC2bad.lines.map (·.debit)).sum) =
      pyRound2 ((entryC2bad.lines.map (·.credit)).sum) ∧
    create_journal_entry jcStubStore entryC2bad =
      (.err (invalidDateMsgEs "2024-13-45"), 0) := by
  constructor
  · rfl
  · simp [create_journal_entry, entryC2bad, jcStubStore, dateOptValue]

/-- C2 amended: when the rounded debit and credit totals differ the
operation fails with the unbalanced message and performs no store call;
when they are equal the balance check passes, and creation proceeds to
the store unless the optional date string is present non-empty and
malformed, in which case it fails before any store call. -/
theorem claim_C2 : ∀ (st : JournalCreateStore) (entry : JournalEntryCreate),
    (pyRound2 ((entry.lines.map (·.debit)).sum) ≠
        pyRound2 ((entry.lines.map (·.credit)).sum) →
      create_journal_entry st entry =
        (.err (unbalancedMsg ((entry.lines.map (·.debit)).sum)
          ((entry.lines.map (·.credit)).sum)), 0)) ∧
    (pyRound2 ((entry.lines.map (·.debit)).sum) =
        pyRound2 ((entry.lines.map (·.credit)).sum) →
      dateFieldOk entry.date →
      1 ≤ (create_journal_entry st entry).2) ∧
    (pyRound2 ((entry.lines.map (·.debit)).sum) =
        pyRound2 ((entry.lines.map (·.credit)).sum) →
      ∀ ds, entry.date = some ds → ds.raw ≠ "" → ds.parsed = none →
      create_journal_entry st entry = (.err (invalidDateMsgEs ds.raw), 0)) := by
  intro st entry
  refine ⟨?_, ?_, ?_⟩
  · intro h
    simp only [create_journal_entry]
    rw [if_pos h]
  · intro hbal hok
    obtain ⟨v, hv⟩ := @dateOptValue_ok _ invalidDateMsgEs hok
    simp only [create_journal_entry]
    rw [if_neg (fun hne => hne hbal)]
    simp only [hv]
    cases hcm : st.create_move _ with
    | error e => simp
    | ok move_id =>
      cases hrm : st.read_move move_id with
      | error e => simp [hrm]
      | ok infos => cases infos <;> simp [hrm]
  · intro hbal ds hds hraw hparsed
    simp only [create_journal_entry]
    rw [if_neg (fun hne => hne hbal)]
    rw [hds, dateOptValue_bad hraw hparsed]

/-- C2 witness: a balanced entry with no date reaches the store. -/
theorem claim_C2_witness :
    1 ≤ (create_journal_entry jcStubStore ⟨none, 1, none, []⟩).2 :=
  (claim_C2 jcStubStore ⟨none, 1, none, []⟩).2.1 rfl (fun _ h => nomatch h)

/-! ## Claim C10 -/

/-- C10: in each search tool, a present-but-falsy optional filter value —
`partner_id = 0`, `journal_id = 0` or `state = ""` — yields exactly the
result of the same search with the field omitted, for every store and
every other field: truthiness, not a `None` check, decides presence. -/
theorem claim_C10 :
    (∀ (st : SalesSearchStore) (f : SalesOrderFilter),
      search_sales_orders st { f with partner_id := some 0 } =
        search_sales_orders st { f with partner_id := none }) ∧
    (∀ (st : SalesSearchStore) (f : SalesOrderFilter),
      search_sales_orders st { f with state := some "" } =
        search_sales_orders st { f with state := none }) ∧
    (∀ (st : PurchaseSearchStore) (f : PurchaseOrderFilter),
      search_purchase_orders st { f with partner_id := some 0 } =
        search_purchase_orders st { f with partner_id := none }) ∧
    (∀ (st : PurchaseSearchStore) (f : PurchaseOrderFilter),
      search_purchase_orders st { f with state := some "" } =
        search_purchase_orders st { f with state := none }) ∧
    (∀ (st : JournalSearchStore) (f : JournalEntryFilter),
      search_journal_entries st { f with journal_id := some 0 } =
        search_journal_entries st { f with journal_id := none }) ∧
    (∀ (st : JournalSearchStore) (f : JournalEntryFilter),
      search_journal_entries st { f with state := some "" } =
        search_journal_entries st { f with state := none }) :=
  ⟨fun _ _ => rfl, fun _ _ => rfl, fun _ _ => rfl,
   fun _ _ => rfl, fun _ _ => rfl, fun _ _ => rfl⟩

/-! ## Claim C3 -/

lemma pyRound2_zero : pyRound2 0 = 0 := by
  norm_num [pyRound2, roundHalfEvenZ]

/-- The percent change reported in a successful analysis payload. -/
def percentChangeOf : PyResult SalesPerfPayload → Option ℚ
  | .ok p => some p.summary.percent_change
  | .err _ => none

/-- A previous-period order with a negative total. -/
def negOrder : SalesRec := ⟨1, "SO1", none, "2024-01-15", -100, none⟩

/-- A store whose previous-window search (2024-01-03 .. 2024-01-31)
returns only `negOrder` and whose other searches return nothing. -/
def perfStubStoreNeg : SalesPerfStore :=
  ⟨fun d => if d = perfDomain "2024-01-03" "2024-01-31" then .ok [negOrder] else .ok [],
   fun _ => .ok []⟩

/-- C3 counterexample: with `previous_total = −100` (≠ 0) and
`current_total = 0` the code reports percent change `0` (the fallback),
while the claimed formula gives `−100`: the formula is not applied for a
negative previous total. -/
theorem claim_C3_counterexample :
    percentChangeOf (analyze_sales_performance perfStubStoreNeg perfInputFeb).1 =
      some 0 ∧
    ((0 : ℚ) - (-100)) / (-100) * 100 = -100 ∧ (0 : ℚ) ≠ -100 := by
  refine ⟨?_, by norm_num, by norm_num⟩
  simp only [analyze_sales_performance, perfStubStoreNeg, perfInputFeb, salesGroupedData,
    negOrder]
  rw [if_neg (show ¬(perfDomain "2024-02-01" "2024-02-29" =
    perfDomain "2024-01-03" "2024-01-31") from by decide)]
  rw [if_pos (show perfDomain
    (strftime_ymd (civil_from_days (prevOrdFrom ⟨2024, 2, 1⟩ ⟨2024, 2, 29⟩)))
    (strftime_ymd (civil_from_days (prevOrdTo ⟨2024, 2, 1⟩))) =
    perfDomain "2024-01-03" "2024-01-31" from by decide)]
  norm_num [percentChangeOf, pyRound2_zero]

/-- C3 amended: the reported percent change is the 2-decimal rounding of
`(current − previous) / previous × 100` when `previous_total > 0`, and of
the fallback `0` otherwise — so a zero or negative previous total yields
0, not the formula. -/
theorem claim_C3 : ∀ (st : SalesPerfStore) (params : SalesPerformanceInput)
    (p : SalesPerfPayload),
    (analyze_sales_performance st params).1 = .ok p →
    p.summary.percent_change =
      pyRound2 (if p.summary.prev_total_amount > 0 then
        ((p.summary.total_amount - p.summary.prev_total_amount) /
          p.summary.prev_total_amount) * 100
      else 0) := by
  intro st params p h
  cases hdf : params.date_from.parsed with
  | none => simp [analyze_sales_performance, hdf] at h
  | some dfd =>
  cases hdt : params.date_to.parsed with
  | none => simp [analyze_sales_performance, hdf, hdt] at h
  | some dtd =>
  cases hs1 : st.search_read_orders (perfDomain params.date_from.raw params.date_to.raw) with
  | error e => simp [analyze_sales_performance, hdf, hdt, hs1] at h
  | ok sales_data =>
  cases hs2 : st.search_read_orders
      (perfDomain (strftime_ymd (civil_from_days (prevOrdFrom dfd dtd)))
        (strftime_ymd (civil_from_days (prevOrdTo dfd)))) with
  | error e => simp [analyze_sales_performance, hdf, hdt, hs1, hs2] at h
  | ok prev_sales_data =>
  rcases hg : salesGroupedData st params.group_by sales_data with ⟨eg | g, gc⟩
  · simp [analyze_sales_performance, hdf, hdt, hs1, hs2, hg] at h
  · simp only [analyze_sales_performance, hdf, hdt, hs1, hs2, hg] at h
    injection h with h2
    subst h2
    rfl

/-- C3 witness: the fallback at a concrete input with previous total 0. -/
theorem claim_C3_witness :
    (⟨"2024-01-01", "2024-01-02",
      ⟨0, 0, "2023-12-30", "2023-12-31", 0, 0, pyRound2 0⟩, {}⟩ :
        SalesPerfPayload).summary.percent_change =
      pyRound2 (if ((⟨"2024-01-01", "2024-01-02",
        ⟨0, 0, "2023-12-30", "2023-12-31", 0, 0, pyRound2 0⟩, {}⟩ :
          SalesPerfPayload).summary.prev_total_amount) > 0 then
        (((⟨"2024-01-01", "2024-01-02",
          ⟨0, 0, "2023-12-30", "2023-12-31", 0, 0, pyRound2 0⟩, {}⟩ :
            SalesPerfPayload).summary.total_amount -
          (⟨"2024-01-01", "2024-01-02",
            ⟨0, 0, "2023-12-30", "2023-12-31", 0, 0, pyRound2 0⟩, {}⟩ :
              SalesPerfPayload).summary.prev_total_amount) /
          (⟨"2024-01-01", "2024-01-02",
            ⟨0, 0, "2023-12-30", "2023-12-31", 0, 0, pyRound2 0⟩, {}⟩ :
              SalesPerfPayload).summary.prev_total_amount) * 100
      else 0) :=
  claim_C3 perfStubStore
    ⟨⟨"2024-01-01", some ⟨2024, 1, 1⟩⟩, ⟨"2024-01-02", some ⟨2024, 1, 2⟩⟩, none⟩
    _ (by
      simp [analyze_sales_performance, perfStubStore, salesGroupedData, pyRound2_zero]
      decide)

/-! ## Claim C6 -/

/-- The profitability category of a successful ratio payload. -/
def profitabilityOf : PyResult RatioPayload → Option ProfitabilityRatios
  | .ok p => p.ratios.profitability
  | .err _ => none

/-- The ratio-analysis input requesting only profitability. -/
def ratioInputC6 : FinancialRatioInput :=
  ⟨⟨"2024-01-01", some ⟨2024, 1, 1⟩⟩, ⟨"2024-12-31", some ⟨2024, 12, 31⟩⟩,
   ["profitability"]⟩

/-- Balance store with assets 2000, equity 1000, income 1000, expenses
400 (and nothing in the other categories). -/
def ratioStubStore : RatioStore :=
  ⟨fun d =>
    if d = ratioBaseDomain "asset" "2024-01-01" "2024-12-31" then .ok [⟨none, 2000⟩]
    else if d = ratioBaseDomain "equity" "2024-01-01" "2024-12-31" then .ok [⟨none, 1000⟩]
    else if d = ratioBaseDomain "income" "2024-01-01" "2024-12-31" then .ok [⟨none, 1000⟩]
    else if d = ratioBaseDomain "expense" "2024-01-01" "2024-12-31" then .ok [⟨none, 400⟩]
    else .ok []⟩

/-- As `ratioStubStore` with no asset and no equity balances at all
(total assets 0). -/
def ratioStubStoreZeroAssets : RatioStore :=
  ⟨fun d =>
    if d = ratioBaseDomain "income" "2024-01-01" "2024-12-31" then .ok [⟨none, 1000⟩]
    else if d = ratioBaseDomain "expense" "2024-01-01" "2024-12-31" then .ok [⟨none, 400⟩]
    else .ok []⟩

/-- C6: when profitability is requested, net income = total income −
total expenses, and ROA / ROE / net margin are the net-income ratios with
the 0 guard on a zero denominator; in particular income 1000, expenses
400, assets 2000, equity 1000 yield net 600, ROA 30, ROE 60, margin 60
end-to-end, and with total assets 0 the ROA is exactly 0. -/
theorem claim_C6 :
    (∀ (requested : List String)
        (total_assets current_assets total_liabilities current_liabilities
         total_equity total_income total_expenses : ℚ),
      requested.contains "profitability" = true →
      (computeRatios requested total_assets current_assets total_liabilities
        current_liabilities total_equity total_income total_expenses).2.profitability =
        some ⟨if total_assets ≠ 0 then
                ((total_income - total_expenses) / total_assets) * 100 else 0,
              if total_equity ≠ 0 then
                ((total_income - total_expenses) / total_equity) * 100 else 0,
              if total_income ≠ 0 then
                ((total_income - total_expenses) / total_income) * 100 else 0,
              total_income - total_expenses, total_income⟩) ∧
    profitabilityOf (analyze_financial_ratios ratioStubStore ratioInputC6).1 =
      some ⟨30, 60, 60, 600, 1000⟩ ∧
    profitabilityOf (analyze_financial_ratios ratioStubStoreZeroAssets ratioInputC6).1 =
      some ⟨0, 0, 60, 600, 1000⟩ := by
  refine ⟨?_, ?_, ?_⟩
  · intro requested ta ca tl cl te ti texp h
    have h2 : "profitability" ∈ requested := by simpa using h
    simp [computeRatios, h2]
  · simp [analyze_financial_ratios, ratioStubStore, ratioInputC6, profitabilityOf,
      ratioBaseDomain, ratioTypedDomain, computeRatios]
    norm_num
  · simp [analyze_financial_ratios, ratioStubStoreZeroAssets, ratioInputC6,
      profitabilityOf, ratioBaseDomain, ratioTypedDomain, computeRatios]
    norm_num

/-- C6 witness: the profitability formulas at the spec's concrete
totals. -/
theorem claim_C6_witness :
    (computeRatios ["profitability"] 2000 0 0 0 1000 1000 400).2.profitability =
      some ⟨if (2000 : ℚ) ≠ 0 then (((1000 : ℚ) - 400) / 2000) * 100 else 0,
            if (1000 : ℚ) ≠ 0 then (((1000 : ℚ) - 400) / 1000) * 100 else 0,
            if (1000 : ℚ) ≠ 0 then (((1000 : ℚ) - 400) / 1000) * 100 else 0,
            (1000 : ℚ) - 400, 1000⟩ :=
  claim_C6.1 ["profitability"] 2000 0 0 0 1000 1000 400 rfl

/-! ## Claim C7 -/

lemma mem_insertByDesc {α : Type} {key : α → ℚ} {x a : α} {l : List α} :
    a ∈ insertByDesc key x l ↔ a = x ∨ a ∈ l := by
  induction l with
  | nil => simp [insertByDesc]
  | cons y ys ih =>
    simp only [insertByDesc]
    split
    · simp [List.mem_cons]
    · simp only [List.mem_cons, ih]
      tauto

lemma mem_sortByDesc {α : Type} {key : α → ℚ} {a : α} {l : List α} :
    a ∈ sortByDesc key l ↔ a ∈ l := by
  induction l with
  | nil => simp [sortByDesc]
  | cons x xs ih => simp [sortByDesc, mem_insertByDesc, ih]

lemma productTurnover_formulas {st : TurnoverStore} {date_from date_to : String}
    {days_in_period : Int} {product : ProductRec} {calls : Nat}
    {entry : TurnoverEntry} {c : Nat}
    (h : productTurnover st date_from date_to days_in_period product calls =
      (.ok entry, c)) :
    entry.turnover_ratio =
      (if entry.avg_inventory_value > 0 then entry.cogs / entry.avg_inventory_value
       else 0) ∧
    entry.days_inventory =
      (if entry.turnover_ratio > 0 then (days_in_period : ℚ) / entry.turnover_ratio
       else 0) := by
  unfold productTurnover at h
  cases hm : st.search_read_moves (outgoingDomain product.id date_from date_to) with
  | error e => rw [hm] at h; simp at h
  | ok moves =>
    rw [hm] at h
    rcases hv : avgInventoryValue st product.id product.standard_price date_from date_to
        (calls + 1) with ⟨ev | avg, c2⟩
    · rw [hv] at h; simp at h
    · rw [hv] at h
      simp only [Prod.mk.injEq, Except.ok.injEq] at h
      obtain ⟨he, _⟩ := h
      subst he
      exact ⟨rfl, rfl⟩

lemma turnoverLoop_mem {st : TurnoverStore} {date_from date_to : String}
    {days_in_period : Int} :
    ∀ {products : List ProductRec} {calls : Nat}
      {res : List (Int × TurnoverEntry)} {c : Nat},
    turnoverLoop st date_from date_to days_in_period products calls = (.ok res, c) →
    ∀ kv, kv ∈ res → ∃ p calls2 c2,
      productTurnover st date_from date_to days_in_period p calls2 = (.ok kv.2, c2) := by
  intro products
  induction products with
  | nil =>
    intro calls res c h kv hm
    simp only [turnoverLoop, Prod.mk.injEq, Except.ok.injEq] at h
    obtain ⟨hres, _⟩ := h
    subst hres
    simp at hm
  | cons p rest ih =>
    intro calls res c h kv hm
    unfold turnoverLoop at h
    rcases hp : productTurnover st date_from date_to days_in_period p calls
        with ⟨pe | entry, c1⟩
    · rw [hp] at h; simp at h
    · rw [hp] at h
      dsimp only at h
      rcases hl : turnoverLoop st date_from date_to days_in_period rest c1
          with ⟨le | entries, c2⟩
      · rw [hl] at h; simp at h
      · rw [hl] at h
        simp only [Prod.mk.injEq, Except.ok.injEq] at h
        obtain ⟨hres, _⟩ := h
        subst hres
        rcases List.mem_cons.mp hm with hkv | hkv
        · subst hkv
          exact ⟨p, calls, c1, hp⟩
        · exact ih hl kv hkv

/-- The ranked product list of a successful turnover payload along with
the reported day count. -/
def turnoverProductsOf : PyResult TurnoverPayload → Option (Int × List (Int × TurnoverEntry))
  | .ok p => some (p.period_days, p.products)
  | .err _ => none

/-- The turnover input for a 30-day period. -/
def turnoverInputC7 : InventoryTurnoverInput :=
  ⟨⟨"2024-01-01", some ⟨2024, 1, 1⟩⟩, ⟨"2024-01-30", some ⟨2024, 1, 30⟩⟩, none, none⟩

/-- A store with one product of standard cost 10, one outgoing move of 2
units at unit price 250 (COGS 500), and valuations 200 / 300 at the
period ends (average inventory value 250). -/
def turnoverStubStore : TurnoverStore :=
  ⟨fun _ => .ok [⟨7, "Widget", none, none, 10⟩],
   fun _ => .ok [⟨2, some 250⟩],
   fun _ toDate => if toDate = "2024-01-01" then .ok [⟨200⟩] else .ok [⟨300⟩],
   fun _ _ => .ok []⟩

/-- As `turnoverStubStore` but with zero valuations (average inventory
value 0). -/
def turnoverStubStoreZero : TurnoverStore :=
  ⟨fun _ => .ok [⟨7, "Widget", none, none, 10⟩],
   fun _ => .ok [⟨2, some 250⟩],
   fun _ _ => .ok [⟨0⟩],
   fun _ _ => .ok []⟩

/-- C7: in every turnover analysis, each reported product satisfies
turnover ratio = COGS / average inventory value when the average value is
positive and 0 otherwise, and days of inventory = (inclusive period
length) / turnover ratio when the ratio is positive and 0 otherwise; in
particular COGS 500 and average value 250 over the 30-day period
2024-01-01..2024-01-30 give ratio 2 and days 15, and average value 0
gives 0 for both. -/
theorem claim_C7 :
    (∀ (st : TurnoverStore) (params : InventoryTurnoverInput)
        (payload : TurnoverPayload) (kv : Int × TurnoverEntry),
      (analyze_inventory_turnover st params).1 = .ok payload →
      kv ∈ payload.products →
      kv.2.turnover_ratio =
        (if kv.2.avg_inventory_value > 0 then kv.2.cogs / kv.2.avg_inventory_value
         else 0) ∧
      kv.2.days_inventory =
        (if kv.2.turnover_ratio > 0 then (payload.period_days : ℚ) / kv.2.turnover_ratio
         else 0)) ∧
    turnoverProductsOf (analyze_inventory_turnover turnoverStubStore turnoverInputC7).1 =
      some (30, [(7, ⟨7, "Widget", none, "Uncategorized", 500, 250, 2, 15⟩)]) ∧
    turnoverProductsOf
        (analyze_inventory_turnover turnoverStubStoreZero turnoverInputC7).1 =
      some (30, [(7, ⟨7, "Widget", none, "Uncategorized", 500, 0, 0, 0⟩)]) := by
  refine ⟨?_, ?_, ?_⟩
  · intro st params payload kv h hmem
    cases hdf : params.date_from.parsed with
    | none => simp [analyze_inventory_turnover, hdf] at h
    | some dfd =>
    cases hdt : params.date_to.parsed with
    | none => simp [analyze_inventory_turnover, hdf, hdt] at h
    | some dtd =>
    cases hp : st.search_read_products (turnoverProductDomain params) with
    | error e => simp [analyze_inventory_turnover, hdf, hdt, hp] at h
    | ok products =>
    by_cases hempty : products = []
    · simp [analyze_inventory_turnover, hdf, hdt, hp, hempty] at h
    · rcases hloop : turnoverLoop st params.date_from.raw params.date_to.raw
          (days_from_civil dtd - days_from_civil dfd + 1) products 1
          with ⟨le | product_turnover, c⟩
      · simp [analyze_inventory_turnover, hdf, hdt, hp, hempty, hloop] at h
      · simp only [analyze_inventory_turnover, hdf, hdt, hp, hempty, if_false,
          hloop] at h
        injection h with h2
        subst h2
        simp only [mem_sortByDesc] at hmem
        obtain ⟨p, calls2, c2, hpt⟩ := turnoverLoop_mem hloop kv hmem
        exact productTurnover_formulas hpt
  · simp [analyze_inventory_turnover, turnoverStubStore, turnoverInputC7,
      turnoverProductsOf, turnoverLoop, productTurnover, avgInventoryValue,
      outgoingDomain, turnoverProductDomain, sortByDesc, insertByDesc,
      days_from_civil]
    norm_num
  · simp [analyze_inventory_turnover, turnoverStubStoreZero, turnoverInputC7,
      turnoverProductsOf, turnoverLoop, productTurnover, avgInventoryValue,
      outgoingDomain, turnoverProductDomain, sortByDesc, insertByDesc,
      days_from_civil]
    norm_num

/-- The concrete turnover entry and payload of the 30-day instance. -/
def turnoverEntryC7 : TurnoverEntry := ⟨7, "Widget", none, "Uncategorized", 500, 250, 2, 15⟩

def turnoverPayloadC7 : TurnoverPayload :=
  ⟨"2024-01-01", "2024-01-30", 30, ⟨1, 500, 250, 2, 15⟩, [(7, turnoverEntryC7)]⟩

/-- C7 witness: the per-product formulas through the end-to-end analysis
at the concrete 30-day instance. -/
theorem claim_C7_witness :
    turnoverEntryC7.turnover_ratio =
      (if turnoverEntryC7.avg_inventory_value > 0 then
        turnoverEntryC7.cogs / turnoverEntryC7.avg_inventory_value else 0) ∧
    turnoverEntryC7.days_inventory =
      (if turnoverEntryC7.turnover_ratio > 0 then
        (turnoverPayloadC7.period_days : ℚ) / turnoverEntryC7.turnover_ratio else 0) :=
  claim_C7.1 turnoverStubStore turnoverInputC7 turnoverPayloadC7 (7, turnoverEntryC7)
    (by
      simp [analyze_inventory_turnover, turnoverStubStore, turnoverInputC7,
        turnoverLoop, productTurnover, avgInventoryValue, outgoingDomain,
        turnoverProductDomain, sortByDesc, insertByDesc, days_from_civil,
        turnoverPayloadC7, turnoverEntryC7]
      norm_num)
    (by simp [turnoverPayloadC7])

/-! ## Claim C8 -/

/-- A present, non-empty date string that `strptime` rejects. -/
def badDate (d : Option DateStr) : Prop :=
  ∃ ds, d = some ds ∧ ds.raw ≠ "" ∧ ds.parsed = none

lemma namesYmdFormat_en (s : String) : namesYmdFormat (invalidDateMsgEn s) := by
  have hdec : (". Use YYYY-MM-DD." : String).data =
      (". Use " : String).data ++ ("YYYY-MM-DD" : String).data ++
        ("." : String).data := by decide
  refine ⟨("Invalid date format: " : String).data ++ s.data ++ (". Use " : String).data,
    ("." : String).data, ?_⟩
  simp only [invalidDateMsgEn, String.data_append, hdec, List.append_assoc]
  simp

lemma namesYmdFormat_es (s : String) : namesYmdFormat (invalidDateMsgEs s) := by
  have hdec : (". Use YYYY-MM-DD." : String).data =
      (". Use " : String).data ++ ("YYYY-MM-DD" : String).data ++
        ("." : String).data := by decide
  refine ⟨("Formato de fecha inválido: " : String).data ++ s.data ++
    (". Use " : String).data, ("." : String).data, ?_⟩
  simp only [invalidDateMsgEs, String.data_append, hdec, List.append_assoc]
  simp

lemma namesYmdFormat_analysis_en : namesYmdFormat invalidDateMsgAnalysisEn := by
  unfold namesYmdFormat
  decide

lemma namesYmdFormat_analysis_es : namesYmdFormat invalidDateMsgAnalysisEs := by
  unfold namesYmdFormat
  decide

lemma buildSalesDomain_bad {f : SalesOrderFilter}
    (h : badDate f.date_from ∨ (dateFieldOk f.date_from ∧ badDate f.date_to)) :
    ∃ msg, buildSalesDomain f = .error msg ∧ namesYmdFormat msg := by
  rcases h with ⟨ds, hds, hraw, hp⟩ | ⟨hok, ds, hds, hraw, hp⟩
  · exact ⟨invalidDateMsgEn ds.raw,
      by simp [buildSalesDomain, hds, dateFilterStep, hraw, hp],
      namesYmdFormat_en ds.raw⟩
  · cases hdf : f.date_from with
    | none => exact ⟨invalidDateMsgEn ds.raw,
        by simp [buildSalesDomain, hdf, hds, dateFilterStep, hraw, hp],
        namesYmdFormat_en ds.raw⟩
    | some ds2 =>
      rcases hok ds2 hdf with he | hs
      · exact ⟨invalidDateMsgEn ds.raw,
          by simp [buildSalesDomain, hdf, hds, dateFilterStep, he, hraw, hp],
          namesYmdFormat_en ds.raw⟩
      · rcases Option.isSome_iff_exists.mp hs with ⟨dt2, hdt2⟩
        by_cases he2 : ds2.raw = ""
        · exact ⟨invalidDateMsgEn ds.raw,
            by simp [buildSalesDomain, hdf, hds, dateFilterStep, he2, hraw, hp],
            namesYmdFormat_en ds.raw⟩
        · exact ⟨invalidDateMsgEn ds.raw,
            by simp [buildSalesDomain, hdf, hds, dateFilterStep, he2, hdt2, hraw, hp],
            namesYmdFormat_en ds.raw⟩

lemma buildPurchaseDomain_bad {f : PurchaseOrderFilter}
    (h : badDate f.date_from ∨ (dateFieldOk f.date_from ∧ badDate f.date_to)) :
    ∃ msg, buildPurchaseDomain f = .error msg ∧ namesYmdFormat msg := by
  rcases h with ⟨ds, hds, hraw, hp⟩ | ⟨hok, ds, hds, hraw, hp⟩
  · exact ⟨invalidDateMsgEn ds.raw,
      by simp [buildPurchaseDomain, hds, dateFilterStep, hraw, hp],
      namesYmdFormat_en ds.raw⟩
  · cases hdf : f.date_from with
    | none => exact ⟨invalidDateMsgEn ds.raw,
        by simp [buildPurchaseDomain, hdf, hds, dateFilterStep, hraw, hp],
        namesYmdFormat_en ds.raw⟩
    | some ds2 =>
      rcases hok ds2 hdf with he | hs
      · exact ⟨invalidDateMsgEn ds.raw,
          by simp [buildPurchaseDomain, hdf, hds, dateFilterStep, he, hraw, hp],
          namesYmdFormat_en ds.raw⟩
      · rcases Option.isSome_iff_exists.mp hs with ⟨dt2, hdt2⟩
        by_cases he2 : ds2.raw = ""
        · exact ⟨invalidDateMsgEn ds.raw,
            by simp [buildPurchaseDomain, hdf, hds, dateFilterStep, he2, hraw, hp],
            namesYmdFormat_en ds.raw⟩
        · exact ⟨invalidDateMsgEn ds.raw,
            by simp [buildPurchaseDomain, hdf, hds, dateFilterStep, he2, hdt2, hraw, hp],
            namesYmdFormat_en ds.raw⟩

lemma buildJournalDomain_bad {f : JournalEntryFilter}
    (h : badDate f.date_from ∨ (dateFieldOk f.date_from ∧ badDate f.date_to)) :
    ∃ msg, buildJournalDomain f = .error msg ∧ namesYmdFormat msg := by
  rcases h with ⟨ds, hds, hraw, hp⟩ | ⟨hok, ds, hds, hraw, hp⟩
  · exact ⟨invalidDateMsgEs ds.raw,
      by simp [buildJournalDomain, hds, dateFilterStep, hraw, hp],
      namesYmdFormat_es ds.raw⟩
  · cases hdf : f.date_from with
    | none => exact ⟨invalidDateMsgEs ds.raw,
        by simp [buildJournalDomain, hdf, hds, dateFilterStep, hraw, hp],
        namesYmdFormat_es ds.raw⟩
    | some ds2 =>
      rcases hok ds2 hdf with he | hs
      · exact ⟨invalidDateMsgEs ds.raw,
          by simp [buildJournalDomain, hdf, hds, dateFilterStep, he, hraw, hp],
          namesYmdFormat_es ds.raw⟩
      · rcases Option.isSome_iff_exists.mp hs with ⟨dt2, hdt2⟩
        by_cases he2 : ds2.raw = ""
        · exact ⟨invalidDateMsgEs ds.raw,
            by simp [buildJournalDomain, hdf, hds, dateFilterStep, he2, hraw, hp],
            namesYmdFormat_es ds.raw⟩
        · exact ⟨invalidDateMsgEs ds.raw,
            by simp [buildJournalDomain, hdf, hds, dateFilterStep, he2, hdt2, hraw, hp],
            namesYmdFormat_es ds.raw⟩

/-- A sales-search store that succeeds with no records. -/
def searchStubStore : SalesSearchStore := ⟨fun _ _ _ _ => .ok [], fun _ => .ok 0⟩

/-- A filter whose `date_from` is present but empty — a string `strptime`
cannot parse. -/
def emptyDateFilter : SalesOrderFilter := { date_from := some ⟨"", none⟩ }

/-- C8 counterexample: the empty string is present and not parseable as
`YYYY-MM-DD`, yet `search_sales_orders` treats it as absent (Python
truthiness), returns success and performs two store calls instead of
failing with zero calls. -/
theorem claim_C8_counterexample :
    (⟨"", none⟩ : DateStr).parsed = none ∧
    search_sales_orders searchStubStore emptyDateFilter = (.ok ⟨0, 0, []⟩, 2) :=
  ⟨rfl, rfl⟩

/-- C8 amended: in the search tools a present malformed date string
fails with a format-naming validation error and zero store calls
provided it is non-empty (a present empty string is treated as an absent
field); in the analysis tools, whose date parameters are mandatory, any
unparseable date string (empty included) fails with the fixed
format-naming message and zero store calls. -/
theorem claim_C8 :
    (∀ (st : SalesSearchStore) (f : SalesOrderFilter),
      badDate f.date_from ∨ (dateFieldOk f.date_from ∧ badDate f.date_to) →
      ∃ msg, search_sales_orders st f = (.err msg, 0) ∧ namesYmdFormat msg) ∧
    (∀ (st : PurchaseSearchStore) (f : PurchaseOrderFilter),
      badDate f.date_from ∨ (dateFieldOk f.date_from ∧ badDate f.date_to) →
      ∃ msg, search_purchase_orders st f = (.err msg, 0) ∧ namesYmdFormat msg) ∧
    (∀ (st : JournalSearchStore) (f : JournalEntryFilter),
      badDate f.date_from ∨ (dateFieldOk f.date_from ∧ badDate f.date_to) →
      ∃ msg, search_journal_entries st f = (.err msg, 0) ∧ namesYmdFormat msg) ∧
    (∀ (st : SalesPerfStore) (params : SalesPerformanceInput),
      params.date_from.parsed = none ∨ params.date_to.parsed = none →
      analyze_sales_performance st params = (.err invalidDateMsgAnalysisEn, 0) ∧
        namesYmdFormat invalidDateMsgAnalysisEn) ∧
    (∀ (st : SupplierPerfStore) (params : SupplierPerformanceInput),
      params.date_from.parsed = none ∨ params.date_to.parsed = none →
      analyze_supplier_performance st params = (.err invalidDateMsgAnalysisEn, 0) ∧
        namesYmdFormat invalidDateMsgAnalysisEn) ∧
    (∀ (st : TurnoverStore) (params : InventoryTurnoverInput),
      params.date_from.parsed = none ∨ params.date_to.parsed = none →
      analyze_inventory_turnover st params = (.err invalidDateMsgAnalysisEn, 0) ∧
        namesYmdFormat invalidDateMsgAnalysisEn) ∧
    (∀ (st : RatioStore) (params : FinancialRatioInput),
      params.date_from.parsed = none ∨ params.date_to.parsed = none →
      analyze_financial_ratios st params = (.err invalidDateMsgAnalysisEs, 0) ∧
        namesYmdFormat invalidDateMsgAnalysisEs) := by
  refine ⟨?_, ?_, ?_, ?_, ?_, ?_, ?_⟩
  · intro st f h
    obtain ⟨msg, hb, hn⟩ := buildSalesDomain_bad h
    exact ⟨msg, by simp [search_sales_orders, hb], hn⟩
  · intro st f h
    obtain ⟨msg, hb, hn⟩ := buildPurchaseDomain_bad h
    exact ⟨msg, by simp [search_purchase_orders, hb], hn⟩
  · intro st f h
    obtain ⟨msg, hb, hn⟩ := buildJournalDomain_bad h
    exact ⟨msg, by simp [search_journal_entries, hb], hn⟩
  · intro st params h
    refine ⟨?_, namesYmdFormat_analysis_en⟩
    rcases h with h | h
    · simp [analyze_sales_performance, h]
    · cases hdf : params.date_from.parsed <;>
        simp [analyze_sales_performance, hdf, h]
  · intro st params h
    refine ⟨?_, namesYmdFormat_analysis_en⟩
    rcases h with h | h
    · simp [analyze_supplier_performance, h]
    · cases hdf : params.date_from.parsed <;>
        simp [analyze_supplier_performance, hdf, h]
  · intro st params h
    refine ⟨?_, namesYmdFormat_analysis_en⟩
    rcases h with h | h
    · simp [analyze_inventory_turnover, h]
    · cases hdf : params.date_from.parsed <;>
        simp [analyze_inventory_turnover, hdf, h]
  · intro st params h
    refine ⟨?_, namesYmdFormat_analysis_es⟩
    rcases h with h | h
    · simp [analyze_financial_ratios, h]
    · cases hdf : params.date_from.parsed <;>
        simp [analyze_financial_ratios, hdf, h]

/-- C8 witness: a non-empty malformed date string makes the sales search
fail before any store call with a message naming the format. -/
theorem claim_C8_witness :
    ∃ msg, search_sales_orders searchStubStore
      { date_from := some ⟨"not-a-date", none⟩ } = (.err msg, 0) ∧
      namesYmdFormat msg :=
  claim_C8.1 searchStubStore { date_from := some ⟨"not-a-date", none⟩ }
    (Or.inl ⟨⟨"not-a-date", none⟩, rfl, by decide, rfl⟩)

/-! ## Claim C1 -/

/-- The predicates one optional date filter contributes on success. -/
def datePreds (field op : String) (d : Option DateStr) : Domain :=
  match d with
  | none => []
  | some ds => if ds.raw = "" then [] else [(field, op, DVal.s ds.raw)]

lemma dateFilterStep_eq_ok {domain : Domain} {field op : String} {d : Option DateStr}
    {msg : String → String} (h : dateFieldOk d) :
    dateFilterStep domain field op d msg = .ok (domain ++ datePreds field op d) := by
  match d with
  | none => simp [dateFilterStep, datePreds]
  | some ds =>
    rcases h ds rfl with he | hs
    · simp [dateFilterStep, datePreds, he]
    · rcases Option.isSome_iff_exists.mp hs with ⟨d2, hd2⟩
      by_cases he : ds.raw = ""
      · simp [dateFilterStep, datePreds, he]
      · simp [dateFilterStep, datePreds, he, hd2]

lemma buildSalesDomain_ok {f : SalesOrderFilter}
    (h1 : dateFieldOk f.date_from) (h2 : dateFieldOk f.date_to) :
    ∃ dom, buildSalesDomain f = .ok dom := by
  unfold buildSalesDomain
  dsimp only
  rw [dateFilterStep_eq_ok h1]
  dsimp only
  rw [dateFilterStep_eq_ok h2]
  exact ⟨_, rfl⟩

lemma buildPurchaseDomain_ok {f : PurchaseOrderFilter}
    (h1 : dateFieldOk f.date_from) (h2 : dateFieldOk f.date_to) :
    ∃ dom, buildPurchaseDomain f = .ok dom := by
  unfold buildPurchaseDomain
  dsimp only
  rw [dateFilterStep_eq_ok h1]
  dsimp only
  rw [dateFilterStep_eq_ok h2]
  exact ⟨_, rfl⟩

lemma buildJournalDomain_ok {f : JournalEntryFilter}
    (h1 : dateFieldOk f.date_from) (h2 : dateFieldOk f.date_to) :
    ∃ dom, buildJournalDomain f = .ok dom := by
  unfold buildJournalDomain
  dsimp only
  rw [dateFilterStep_eq_ok h1]
  dsimp only
  rw [dateFilterStep_eq_ok h2]
  exact ⟨_, rfl⟩

/-- Collaborators that raise (with message `m`) on every method call. -/
def raisingSalesSearchStore (m : String) : SalesSearchStore :=
  ⟨fun _ _ _ _ => .error m, fun _ => .error m⟩

def raisingPurchaseSearchStore (m : String) : PurchaseSearchStore :=
  ⟨fun _ _ _ _ => .error m, fun _ => .error m⟩

def raisingJournalSearchStore (m : String) : JournalSearchStore :=
  ⟨fun _ _ _ => .error m, fun _ => .error m, fun _ => .error m⟩

def raisingSalesCreateStore (m : String) : SalesCreateStore :=
  ⟨fun _ => .error m, fun _ => .error m⟩

def raisingPurchaseCreateStore (m : String) : PurchaseCreateStore :=
  ⟨fun _ => .error m, fun _ => .error m⟩

def raisingJournalCreateStore (m : String) : JournalCreateStore :=
  ⟨fun _ => .error m, fun _ => .error m⟩

def raisingSalesPerfStore (m : String) : SalesPerfStore :=
  ⟨fun _ => .error m, fun _ => .error m⟩

def raisingSupplierPerfStore (m : String) : SupplierPerfStore :=
  ⟨fun _ => .error m⟩

def raisingRatioStore (m : String) : RatioStore := ⟨fun _ => .error m⟩

def raisingTurnoverStore (m : String) : TurnoverStore :=
  ⟨fun _ => .error m, fun _ => .error m, fun _ _ => .error m, fun _ _ => .error m⟩

def raisingAvailStore (m : String) : AvailStore :=
  ⟨fun _ => .error m, fun _ _ => .error m, fun _ => .error m⟩

def raisingAdjustStore (m : String) : AdjustStore :=
  ⟨fun _ => .error m, fun _ => .error m, fun _ => .error m, fun _ => .error m,
   fun _ => .error m, fun _ _ => .error m, fun _ => .error m, fun _ => .error m⟩

/-- C1: every one of the twelve tool operations always returns one of the
two boundary shapes (`success/result` or `success/error`) and never
raises; and whenever every collaborator method raises with message `m`
(and the operation's own validations pass, so a store call is reached),
the operation returns the failure shape carrying `m` verbatim. -/
theorem claim_C1 :
    ((∀ st f, isResultShaped (search_sales_orders st f).1) ∧
     (∀ st f, isResultShaped (search_purchase_orders st f).1) ∧
     (∀ st f, isResultShaped (search_journal_entries st f).1) ∧
     (∀ st order, isResultShaped (create_sales_order st order).1) ∧
     (∀ st order, isResultShaped (create_purchase_order st order).1) ∧
     (∀ st entry, isResultShaped (create_journal_entry st entry).1) ∧
     (∀ st params, isResultShaped (analyze_sales_performance st params).1) ∧
     (∀ st params, isResultShaped (analyze_supplier_performance st params).1) ∧
     (∀ st params, isResultShaped (analyze_financial_ratios st params).1) ∧
     (∀ st params, isResultShaped (analyze_inventory_turnover st params).1) ∧
     (∀ st params, isResultShaped (check_product_availability st params).1) ∧
     (∀ st adjustment, isResultShaped (create_inventory_adjustment st adjustment).1)) ∧
    ((∀ (m : String) (f : SalesOrderFilter),
        dateFieldOk f.date_from → dateFieldOk f.date_to →
        (search_sales_orders (raisingSalesSearchStore m) f).1 = .err m) ∧
     (∀ (m : String) (f : PurchaseOrderFilter),
        dateFieldOk f.date_from → dateFieldOk f.date_to →
        (search_purchase_orders (raisingPurchaseSearchStore m) f).1 = .err m) ∧
     (∀ (m : String) (f : JournalEntryFilter),
        dateFieldOk f.date_from → dateFieldOk f.date_to →
        (search_journal_entries (raisingJournalSearchStore m) f).1 = .err m) ∧
     (∀ (m : String) (order : SalesOrderCreate),
        dateFieldOk order.date_order →
        (create_sales_order (raisingSalesCreateStore m) order).1 = .err m) ∧
     (∀ (m : String) (order : PurchaseOrderCreate),
        dateFieldOk order.date_order →
        (create_purchase_order (raisingPurchaseCreateStore m) order).1 = .err m) ∧
     (∀ (m : String) (entry : JournalEntryCreate),
        pyRound2 ((entry.lines.map (·.debit)).sum) =
          pyRound2 ((entry.lines.map (·.credit)).sum) →
        dateFieldOk entry.date →
        (create_journal_entry (raisingJournalCreateStore m) entry).1 = .err m) ∧
     (∀ (m : String) (params : SalesPerformanceInput) (dfd dtd : PyDate),
        params.date_from.parsed = some dfd → params.date_to.parsed = some dtd →
        (analyze_sales_performance (raisingSalesPerfStore m) params).1 = .err m) ∧
     (∀ (m : String) (params : SupplierPerformanceInput) (dfd dtd : PyDate),
        params.date_from.parsed = some dfd → params.date_to.parsed = some dtd →
        (analyze_supplier_performance (raisingSupplierPerfStore m) params).1 = .err m) ∧
     (∀ (m : String) (params : FinancialRatioInput) (dfd dtd : PyDate),
        params.date_from.parsed = some dfd → params.date_to.parsed = some dtd →
        (analyze_financial_ratios (raisingRatioStore m) params).1 = .err m) ∧
     (∀ (m : String) (params : InventoryTurnoverInput) (dfd dtd : PyDate),
        params.date_from.parsed = some dfd → params.date_to.parsed = some dtd →
        (analyze_inventory_turnover (raisingTurnoverStore m) params).1 = .err m) ∧
     (∀ (m : String) (params : ProductAvailabilityInput),
        (check_product_availability (raisingAvailStore m) params).1 = .err m) ∧
     (∀ (m : String) (adjustment : InventoryAdjustmentCreate),
        (create_inventory_adjustment (raisingAdjustStore m) adjustment).1 = .err m)) := by
  refine ⟨⟨fun st f => pyResult_shape _, fun st f => pyResult_shape _,
    fun st f => pyResult_shape _, fun st order => pyResult_shape _,
    fun st order => pyResult_shape _, fun st entry => pyResult_shape _,
    fun st params => pyResult_shape _, fun st params => pyResult_shape _,
    fun st params => pyResult_shape _, fun st params => pyResult_shape _,
    fun st params => pyResult_shape _, fun st adjustment => pyResult_shape _⟩,
    ?_, ?_, ?_, ?_, ?_, ?_, ?_, ?_, ?_, ?_, ?_, ?_⟩
  · intro m f h1 h2
    obtain ⟨dom, hd⟩ := buildSalesDomain_ok h1 h2
    simp [search_sales_orders, hd, raisingSalesSearchStore]
  · intro m f h1 h2
    obtain ⟨dom, hd⟩ := buildPurchaseDomain_ok h1 h2
    simp [search_purchase_orders, hd, raisingPurchaseSearchStore]
  · intro m f h1 h2
    obtain ⟨dom, hd⟩ := buildJournalDomain_ok h1 h2
    simp [search_journal_entries, hd, raisingJournalSearchStore]
  · intro m order h
    obtain ⟨v, hv⟩ := @dateOptValue_ok _ invalidDateMsgEn h
    simp [create_sales_order, hv, raisingSalesCreateStore]
  · intro m order h
    obtain ⟨v, hv⟩ := @dateOptValue_ok _ invalidDateMsgEn h
    simp [create_purchase_order, hv, raisingPurchaseCreateStore]
  · intro m entry hbal h
    obtain ⟨v, hv⟩ := @dateOptValue_ok _ invalidDateMsgEs h
    simp only [create_journal_entry]
    rw [if_neg (fun hne => hne hbal)]
    simp [hv, raisingJournalCreateStore]
  · intro m params dfd dtd hdf hdt
    simp [analyze_sales_performance, hdf, hdt, raisingSalesPerfStore]
  · intro m params dfd dtd hdf hdt
    simp [analyze_supplier_performance, hdf, hdt, raisingSupplierPerfStore]
  · intro m params dfd dtd hdf hdt
    simp [analyze_financial_ratios, hdf, hdt, raisingRatioStore]
  · intro m params dfd dtd hdf hdt
    simp [analyze_inventory_turnover, hdf, hdt, raisingTurnoverStore]
  · intro m params
    simp [check_product_availability, raisingAvailStore]
  · intro m adjustment
    simp [create_inventory_adjustment, raisingAdjustStore]

/-- C1 witness: verbatim store-error propagation at concrete inputs for a
search, a validated create and the two unguarded inventory tools. -/
theorem claim_C1_witness :
    (search_sales_orders (raisingSalesSearchStore "boom") {}).1 = .err "boom" ∧
    (create_journal_entry (raisingJournalCreateStore "boom") ⟨none, 1, none, []⟩).1 =
      .err "boom" ∧
    (check_product_availability (raisingAvailStore "boom") ⟨[1], none⟩).1 = .err "boom" ∧
    (create_inventory_adjustment (raisingAdjustStore "boom") ⟨"adj", [], none⟩).1 =
      .err "boom" :=
  ⟨claim_C1.2.1 "boom" {} (fun _ h => nomatch h) (fun _ h => nomatch h),
   claim_C1.2.2.2.2.2.2.1 "boom" ⟨none, 1, none, []⟩ rfl (fun _ h => nomatch h),
   claim_C1.2.2.2.2.2.2.2.2.2.2.2.1 "boom" ⟨[1], none⟩,
   claim_C1.2.2.2.2.2.2.2.2.2.2.2.2 "boom" ⟨"adj", [], none⟩⟩

end OdooMCP
